import Mathlib

/-!
Verification of the baofeng-webusb protocol engine.

This file shallowly embeds the two radio drivers (the BF-888 "Model-A" driver,
in both its primary variant with the stray-byte-tolerant readUntilAck loop and
its strict single-ACK-byte variant, and the KT-8900 "Model-B" driver) together
with the Model-A codeplug-synthesis scenario, and proves properties about them.

Bytes are modelled as Nat (masked with % 256 / % 128 exactly where the source
masks), byte buffers as List Nat, the abstract transport as a record of pure
state-transition functions, and thrown JS errors as an explicit Err value
returned next to the post-state.  Timeout-bounded loops in the source are
modelled with an explicit fuel argument standing for the number of reads the
deadline still permits; wall-clock delays (delay(ms)) have no observable
effect in the embedding and are omitted.
-/

/-- Errors thrown by the drivers and backends.  Each constructor corresponds to
one family of Error messages in the source; the constructor-level classification
is what the message regexes in the source observe. -/
inductive Err where
  /-- backend: "Timeout waiting for N bytes" -/
  | timeout
  /-- "Unexpected ACK ..." / "Bad ACK ..." messages carrying the offending byte -/
  | badAck (b : Nat)
  /-- kt8900: "Radio identification failed. Unsupported KT8900 ident." -/
  | identMismatch
  /-- kt8900: "Short ident block: N bytes" -/
  | shortIdent (n : Nat)
  /-- kt8900: "Extra ID block is short: N bytes" -/
  | extraShort (n : Nat)
  /-- kt8900: "Radio did not ACK upload mode" -/
  | uploadNoAck
  /-- "Unexpected block header ..." / "Invalid header for block ..." -/
  | headerMismatch
  /-- bf888: "Unexpected ident string: ..." -/
  | badIdent
  /-- bf888 primary variant: "Timed out waiting for ACK after ..." -/
  | ackTimeout
  /-- bf888 primary variant: "Failed waiting for ACK after ctx: msg" wrapping
  the error raised by readExactly -/
  | failedAckWrap (e : Err)
  /-- "Radio is not connected. Call connect() first." -/
  | notConnected
  /-- "Codeplug is too small: N bytes" -/
  | tooSmall (n : Nat)
  /-- "Invalid block size: N" -/
  | invalidBlockSize (n : Nat)
  /-- an error thrown by a registered checksum validator -/
  | validationFailure
  /-- any other backend error (e.g. "WebSerial reader not available"), whose
  message matches none of the regexes below -/
  | other
deriving DecidableEq

/-- kt8900 isRetryableIdentError: err instanceof Error and
/Timeout|ACK|ident|upload/i.test(err.message).  Evaluated per constructor on
the concrete message text each constructor stands for. -/
def isRetryableIdentError : Err → Bool
  | .timeout => true          -- "Timeout waiting for N bytes"
  | .badAck _ => true         -- messages contain "ACK"
  | .identMismatch => true    -- contains "ident"
  | .shortIdent _ => true     -- "Short ident block" contains "ident"
  | .uploadNoAck => true      -- contains "ACK" and "upload"
  | .badIdent => true         -- "Unexpected ident string" contains "ident"
  | .ackTimeout => true       -- "Timed out waiting for ACK" contains "ACK"
  | .failedAckWrap _ => true  -- "Failed waiting for ACK after ..." contains "ACK"
  | _ => false

/-- kt8900 isTimeoutError: /Timeout/i.test(err.message).  The failedAckWrap
message embeds the wrapped message, so the test recurses into it. -/
def isTimeoutError : Err → Bool
  | .timeout => true
  | .failedAckWrap e => isTimeoutError e
  | _ => false

/-- Abstract transport contract (RadioBackend): write, timed exact read, close,
open, as pure transitions on a backend state σ.  readExactly returns the error
value in place of a thrown exception, together with the post-state. -/
structure Backend (σ : Type) where
  write : σ → List Nat → σ
  readExactly : σ → Nat → Except Err (List Nat) × σ
  closeB : σ → σ
  openB : σ → σ

/-- Scripted stub transport: each readExactly call consumes the next scripted
response (running out of script is a timeout), every write is logged, and
open/close toggle the isOpen flag. -/
instance {ε α : Type} [DecidableEq ε] [DecidableEq α] : DecidableEq (Except ε α) := fun a b =>
  match a, b with
  | .ok x, .ok y => if h : x = y then .isTrue (by rw [h]) else .isFalse (by simp [h])
  | .error x, .error y => if h : x = y then .isTrue (by rw [h]) else .isFalse (by simp [h])
  | .ok _, .error _ => .isFalse (by simp)
  | .error _, .ok _ => .isFalse (by simp)

structure ScriptStub where
  isOpen : Bool
  script : List (Except Err (List Nat))
  writes : List (List Nat)
deriving DecidableEq

def scriptWrite (s : ScriptStub) (d : List Nat) : ScriptStub :=
  { s with writes := s.writes ++ [d] }

def scriptRead (s : ScriptStub) (_n : Nat) : Except Err (List Nat) × ScriptStub :=
  match s.script with
  | [] => (.error .timeout, s)
  | r :: rest => (r, { s with script := rest })

def scriptBackend : Backend ScriptStub :=
  { write := scriptWrite
    readExactly := scriptRead
    closeB := fun s => { s with isOpen := false }
    openB := fun s => { s with isOpen := true } }

/-! ### Uint8Array.set as a list operation -/

/-- Uint8Array.set(x, o): overwrite the slice of l starting at offset o with x. -/
def listSet (l : List Nat) (o : Nat) (x : List Nat) : List Nat :=
  l.take o ++ x ++ l.drop (o + x.length)

/-- Bytes of an ASCII string; each code unit is masked to 7 bits as Node's
ascii decoding and the TextEncoder fallback in the source do. -/
def asciiBytes (s : String) : List Nat :=
  s.data.map fun c => c.toNat % 128

/-! ### Model-A (BF-888) driver, primary variant (src/drivers/bf888.ts, first document) -/

/-- ACK sentinel 0x06 shared by both drivers. -/
def ackByte : Nat := 0x06

/-- Model-A declared memory size 0x03E0. -/
def memSizeA : Nat := 0x03e0

/-- Model-A block size. -/
def blockSizeA : Nat := 8

/-- buildHeader: [command, addrHi, addrLo, len] with 16-bit big-endian address. -/
def buildHeader (cmd addr len : Nat) : List Nat :=
  [cmd, addr / 256 % 256, addr % 256, len % 256]

/-- ASCII command "PROGRAM". -/
def programCmd : List Nat := asciiBytes "PROGRAM"

/-- startsWith(IDENT_PREFIX) on the ascii-decoded 8-byte identification.  Node
Buffer ascii decoding masks each byte to 7 bits. -/
def identIsP3107 (identBytes : List Nat) : Bool :=
  decide ((identBytes.map fun b => b % 128).take 5 = asciiBytes "P3107")

/-- readUntilAck: read single bytes until an ACK arrives, collecting (and thus
skipping) stray non-ACK bytes, until the deadline allows no further read.  The
fuel argument is the number of reads the deadline still permits; running out is
the "Timed out waiting for ACK" error, and an error from readExactly is wrapped
as "Failed waiting for ACK". -/
def readUntilAck {σ : Type} (B : Backend σ) : Nat → σ → Except Err Unit × σ
  | 0, s => (.error .ackTimeout, s)
  | fuel + 1, s =>
    match B.readExactly s 1 with
    | (.error e, s) => (.error (.failedAckWrap e), s)
    | (.ok data, s) =>
      if data.getD 0 0 = ackByte then (.ok (), s)
      else readUntilAck B fuel s

/-- BF888Driver.readBlock (primary variant): send an R frame, read the echoed
W header plus payload, check the header, send ACK, await the confirmation ACK. -/
def readBlockA {σ : Type} (B : Backend σ) (fuel addr len : Nat) (s : σ) :
    Except Err (List Nat) × σ :=
  let s := B.write s (buildHeader 0x52 addr len)
  match B.readExactly s (4 + len) with
  | (.error e, s) => (.error e, s)
  | (.ok response, s) =>
    if response.take 4 = buildHeader 0x57 addr len then
      let data := response.drop 4
      let s := B.write s [ackByte]
      match readUntilAck B fuel s with
      | (.error e, s) => (.error e, s)
      | (.ok _, s) => (.ok data, s)
    else (.error .headerMismatch, s)

/-- Iteration of readBlockA over n consecutive blocks starting at addr,
accumulating into buffer via Uint8Array.set semantics. -/
def readLoopA {σ : Type} (B : Backend σ) (fuel : Nat) :
    Nat → Nat → List Nat → σ → Except Err (List Nat) × σ
  | 0, _, buffer, s => (.ok buffer, s)
  | n + 1, addr, buffer, s =>
    match readBlockA B fuel addr blockSizeA s with
    | (.error e, s) => (.error e, s)
    | (.ok block, s) => readLoopA B fuel n (addr + blockSizeA) (listSet buffer addr block) s

/-- BF888Driver.readCodeplug (primary variant): requires Connected, then reads
0x03E0 / 8 = 124 blocks into a fresh buffer. -/
def readCodeplugA {σ : Type} (B : Backend σ) (fuel : Nat) (conn : Bool) (s : σ) :
    Except Err (List Nat) × σ :=
  if conn then readLoopA B fuel (memSizeA / blockSizeA) 0 (List.replicate memSizeA 0) s
  else (.error .notConnected, s)

/-- BF888Driver.writeBlock (primary variant). -/
def writeBlockA {σ : Type} (B : Backend σ) (fuel addr : Nat) (data : List Nat) (s : σ) :
    Except Err Unit × σ :=
  if data.length ≠ blockSizeA then (.error (.invalidBlockSize data.length), s)
  else
    let s := B.write s (buildHeader 0x57 addr data.length ++ data)
    readUntilAck B fuel s

/-- validateChecksums: run every registered validator in order; the first
failure (modelled as the validator returning false) aborts. -/
def validateChecksums (validators : List (List Nat → Bool)) (data : List Nat) :
    Except Err Unit :=
  match validators with
  | [] => .ok ()
  | v :: rest =>
    if v data then validateChecksums rest data else .error .validationFailure

/-- The three writable ranges of Model-A, as (start, stop) pairs. -/
def writeRangesA : List (Nat × Nat) := [(0x0000, 0x0110), (0x02b0, 0x02c0), (0x0380, 0x03e0)]

/-- Inner loop of BF888Driver.writeCodeplug over one range: n blocks starting
at addr, slicing 8 bytes each; dry-run only logs. -/
def writeRangeLoopA {σ : Type} (B : Backend σ) (fuel : Nat) (dryRun : Bool) (data : List Nat) :
    Nat → Nat → σ → Except Err Unit × σ
  | 0, _, s => (.ok (), s)
  | n + 1, addr, s =>
    let block := (data.drop addr).take blockSizeA
    if dryRun then writeRangeLoopA B fuel dryRun data n (addr + blockSizeA) s
    else
      match writeBlockA B fuel addr block s with
      | (.error e, s) => (.error e, s)
      | (.ok _, s) => writeRangeLoopA B fuel dryRun data n (addr + blockSizeA) s

/-- Outer loop of BF888Driver.writeCodeplug over the writable ranges. -/
def writeRangesLoopA {σ : Type} (B : Backend σ) (fuel : Nat) (dryRun : Bool) (data : List Nat) :
    List (Nat × Nat) → σ → Except Err Unit × σ
  | [], s => (.ok (), s)
  | (start, stop) :: rest, s =>
    match writeRangeLoopA B fuel dryRun data ((stop - start) / blockSizeA) start s with
    | (.error e, s) => (.error e, s)
    | (.ok _, s) => writeRangesLoopA B fuel dryRun data rest s

/-- BF888Driver.writeCodeplug (primary variant): requires Connected, rejects
images shorter than 0x03E0 before any transport I/O, then runs the checksum
validators, then writes the three ranges in 8-byte blocks. -/
def writeCodeplugA {σ : Type} (B : Backend σ) (fuel : Nat)
    (validators : List (List Nat → Bool)) (dryRun conn : Bool)
    (data : List Nat) (s : σ) : Except Err Unit × σ :=
  if conn then
    if data.length < memSizeA then (.error (.tooSmall data.length), s)
    else
      match validateChecksums validators data with
      | .error e => (.error e, s)
      | .ok _ => writeRangesLoopA B fuel dryRun data writeRangesA s
  else (.error .notConnected, s)

/-- Body of BF888Driver.connect (primary variant), i.e. the contents of its
try block after open: mode-entry byte, "PROGRAM", await ACK, request the 8-byte
identification, check the P3107 prefix, send ACK, await the confirmation ACK. -/
def connectABody {σ : Type} (B : Backend σ) (fuel : Nat) (s : σ) : Except Err Unit × σ :=
  let s := B.write s [0x02]
  let s := B.write s programCmd
  match readUntilAck B fuel s with
  | (.error e, s) => (.error e, s)
  | (.ok _, s) =>
    let s := B.write s [0x02]
    match B.readExactly s 8 with
    | (.error e, s) => (.error e, s)
    | (.ok identBytes, s) =>
      if identIsP3107 identBytes then
        let s := B.write s [ackByte]
        readUntilAck B fuel s
      else (.error .badIdent, s)

/-- BF888Driver.connect (primary variant): open the transport, run the body,
and on any failure close the transport (errors from close are swallowed) before
propagating, leaving connected as it was; on success become Connected. -/
def connectA {σ : Type} (B : Backend σ) (fuel : Nat) (conn : Bool) (s : σ) :
    Except Err Unit × Bool × σ :=
  let s := B.openB s
  match connectABody B fuel s with
  | (.ok _, s) => (.ok (), true, s)
  | (.error e, s) => (.error e, conn, B.closeB s)

/-- BF888Driver.disconnect (identical in both variants): a no-op unless
Connected; otherwise send the exit command "E", close, and become
Disconnected. -/
def bf888Disconnect {σ : Type} (B : Backend σ) (conn : Bool) (s : σ) :
    Except Err Unit × Bool × σ :=
  if conn then
    let s := B.write s (asciiBytes "E")
    (.ok (), false, B.closeB s)
  else (.ok (), conn, s)

/-! ### Model-A strict variant (src/drivers/bf888.ts, second document) -/

/-- readByte of the strict variant: one byte with a 2000 ms deadline. -/
def readByteStrict {σ : Type} (B : Backend σ) (s : σ) : Except Err Nat × σ :=
  match B.readExactly s 1 with
  | (.error e, s) => (.error e, s)
  | (.ok data, s) => (.ok (data.getD 0 0), s)

/-- BF888Driver.connect (strict variant): single "\x02PROGRAM" write, then a
single-byte ACK read that must be exactly 0x06; no close on failure. -/
def connectStrict {σ : Type} (B : Backend σ) (conn : Bool) (s : σ) :
    Except Err Unit × Bool × σ :=
  let s := B.openB s
  let s := B.write s (0x02 :: programCmd)
  match readByteStrict B s with
  | (.error e, s) => (.error e, conn, s)
  | (.ok ack, s) =>
    if ack ≠ ackByte then (.error (.badAck ack), conn, s)
    else
      let s := B.write s [0x02]
      match B.readExactly s 8 with
      | (.error e, s) => (.error e, conn, s)
      | (.ok identBytes, s) =>
        if identIsP3107 identBytes then
          let s := B.write s [ackByte]
          match readByteStrict B s with
          | (.error e, s) => (.error e, conn, s)
          | (.ok ack2, s) =>
            if ack2 ≠ ackByte then (.error (.badAck ack2), conn, s)
            else (.ok (), true, s)
        else (.error .badIdent, conn, s)

/-- BF888Driver.readBlock (strict variant): like the primary variant but the
confirmation ACK is a single-byte read that must be exactly 0x06. -/
def readBlockStrict {σ : Type} (B : Backend σ) (addr len : Nat) (s : σ) :
    Except Err (List Nat) × σ :=
  let s := B.write s (buildHeader 0x52 addr len)
  match B.readExactly s (4 + len) with
  | (.error e, s) => (.error e, s)
  | (.ok response, s) =>
    if response.take 4 = buildHeader 0x57 addr len then
      let data := response.drop 4
      let s := B.write s [ackByte]
      match readByteStrict B s with
      | (.error e, s) => (.error e, s)
      | (.ok ack, s) =>
        if ack ≠ ackByte then (.error (.badAck ack), s)
        else (.ok data, s)
    else (.error .headerMismatch, s)

/-- BF888Driver.writeBlock (strict variant). -/
def writeBlockStrict {σ : Type} (B : Backend σ) (addr : Nat) (data : List Nat) (s : σ) :
    Except Err Unit × σ :=
  if data.length ≠ blockSizeA then (.error (.invalidBlockSize data.length), s)
  else
    let s := B.write s (buildHeader 0x57 addr data.length ++ data)
    match readByteStrict B s with
    | (.error e, s) => (.error e, s)
    | (.ok ack, s) =>
      if ack ≠ ackByte then (.error (.badAck ack), s)
      else (.ok (), s)

/-! ### Responsive Model-A stub transport for C1 -/

/-- Stub transport for Model-A backed by an image: answers each R frame with
the matching W header followed by the backing bytes at that address, and each
host ACK with a device ACK. -/
structure RespStubA where
  img : List Nat
  pending : List Nat
deriving DecidableEq

def respAWrite (s : RespStubA) (d : List Nat) : RespStubA :=
  match d with
  | [0x52, hi, lo, len] =>
    { s with pending :=
        s.pending ++ [0x57, hi, lo, len] ++ (s.img.drop (hi * 256 + lo)).take len }
  | [0x06] => { s with pending := s.pending ++ [0x06] }
  | _ => s

def respARead (s : RespStubA) (n : Nat) : Except Err (List Nat) × RespStubA :=
  if n ≤ s.pending.length then
    (.ok (s.pending.take n), { s with pending := s.pending.drop n })
  else (.error .timeout, s)

def respBackendA : Backend RespStubA :=
  { write := respAWrite
    readExactly := respARead
    closeB := fun s => s
    openB := fun s => s }

/-! ### Model-B (KT-8900) driver (src/drivers/kt8900.ts) -/

/-- Model-B declared memory size 0x4000. -/
def memSizeB : Nat := 0x4000

/-- Model-B upload region size 0x3100. -/
def uploadMemSizeB : Nat := 0x3100

/-- Model-B read block size 0x40. -/
def blockSizeB : Nat := 0x40

/-- Model-B write block size 0x10. -/
def txBlockSizeB : Nat := 0x10

/-- Length of the identification response. -/
def identLengthB : Nat := 50

/-- Address and length of the extra identification block. -/
def extraIdAddr : Nat := 0x3df0

def extraIdLen : Nat := 16

/-- The fixed 8-byte magic discovery sequence. -/
def magicB : List Nat := [0x55, 0x20, 0x15, 0x09, 0x16, 0x45, 0x4d, 0x02]

/-- The known 6-character model fingerprints, ASCII encoded. -/
def fileIdsB : List (List Nat) :=
  ["M29154", "M2C234", "M2G1F4", "M2G2F4", "M2G304",
   "M2G314", "M2G424", "M27184", "M2C194"].map asciiBytes

/-- containsSubarray: the needle occurs as a contiguous subsequence anywhere in
the haystack (empty needles never match). -/
def containsSubarray (haystack needle : List Nat) : Bool :=
  if needle.length = 0 ∨ haystack.length < needle.length then false
  else (List.range (haystack.length - needle.length + 1)).any fun i =>
    decide ((haystack.drop i).take needle.length = needle)

/-- buildFrame: [ACK, command, addrHi, addrLo, len] plus the payload. -/
def buildFrameB (cmd addr len : Nat) (data : List Nat) : List Nat :=
  [ackByte, cmd, addr / 256 % 256, addr % 256, len % 256] ++ data

/-- readOptionalAck: collect up to maxBytes single-byte reads, stopping early
(without error) at the first timeout; any other read error propagates. -/
def readOptionalAck {σ : Type} (B : Backend σ) :
    Nat → List Nat → σ → Except Err (List Nat) × σ
  | 0, out, s => (.ok out, s)
  | maxBytes + 1, out, s =>
    match B.readExactly s 1 with
    | (.error e, s) => if isTimeoutError e then (.ok out, s) else (.error e, s)
    | (.ok b, s) => readOptionalAck B maxBytes (out ++ [b.getD 0 0]) s

/-- KT8900Driver.identifyOnce: send the magic, read the 50-byte identification
(first byte must be ACK, payload must contain a known fingerprint), read the
16-byte extra identification block at 0x3DF0 accepting ACK or 0x05, and, for
uploads, send an ACK and require the last optionally-read byte to be ACK. -/
def identifyOnce {σ : Type} (B : Backend σ) (upload : Bool) (s : σ) : Except Err Unit × σ :=
  let s := B.write s magicB
  match B.readExactly s identLengthB with
  | (.error e, s) => (.error e, s)
  | (.ok ident, s) =>
    if ident.getD 0 0 ≠ ackByte then (.error (.badAck (ident.getD 0 0)), s)
    else if ident.length ≠ identLengthB then (.error (.shortIdent ident.length), s)
    else if ¬ (fileIdsB.any fun id => containsSubarray ident id) then
      (.error .identMismatch, s)
    else
      let s := B.write s (buildFrameB 0x53 extraIdAddr extraIdLen [])
      match B.readExactly s (1 + 4 + extraIdLen) with
      | (.error e, s) => (.error e, s)
      | (.ok extra, s) =>
        if extra.getD 0 0 ≠ ackByte ∧ extra.getD 0 0 ≠ 0x05 then
          (.error (.badAck (extra.getD 0 0)), s)
        else if extra.length < 1 + 4 + extraIdLen then (.error (.extraShort extra.length), s)
        else if upload then
          let s := B.write s [ackByte]
          match readOptionalAck B 2 [] s with
          | (.error e, s) => (.error e, s)
          | (.ok ack, s) =>
            if ack.length = 0 ∨ ack.getD (ack.length - 1) 0 ≠ ackByte then
              (.error .uploadNoAck, s)
            else (.ok (), s)
        else (.ok (), s)

/-- One iteration of KT8900Driver.identifyWithRetry at a given attempt number:
rethrow when the attempt budget (3) is exhausted or the error is not in the
retryable class, otherwise retry after the fixed delay. -/
def identifyRetryGo {σ : Type} (B : Backend σ) (upload : Bool) (attempt : Nat) (s : σ) :
    Except Err Unit × σ :=
  match identifyOnce B upload s with
  | (.ok _, s) => (.ok (), s)
  | (.error e, s) =>
    if h : 3 ≤ attempt ∨ ¬ isRetryableIdentError e then (.error e, s)
    else identifyRetryGo B upload (attempt + 1) s
  termination_by 3 - attempt
  decreasing_by push_neg at h; omega

/-- KT8900Driver.identifyWithRetry: up to 3 attempts starting at attempt 1. -/
def identifyWithRetry {σ : Type} (B : Backend σ) (upload : Bool) (s : σ) :
    Except Err Unit × σ :=
  identifyRetryGo B upload 1 s

/-- KT8900Driver.readBlock: send an S frame, read [ack, cmd, addrHi, addrLo,
size, payload], require ack = 0x06 and an exact echo of tag X, address and
length. -/
def readBlockB {σ : Type} (B : Backend σ) (addr len : Nat) (s : σ) :
    Except Err (List Nat) × σ :=
  let s := B.write s (buildFrameB 0x53 addr len [])
  match B.readExactly s (1 + 4 + len) with
  | (.error e, s) => (.error e, s)
  | (.ok response, s) =>
    if response.getD 0 0 ≠ ackByte then (.error (.badAck (response.getD 0 0)), s)
    else
      if response.getD 1 0 ≠ 0x58 ∨ response.getD 2 0 * 256 + response.getD 3 0 ≠ addr ∨
          response.getD 4 0 ≠ len then
        (.error .headerMismatch, s)
      else (.ok (response.drop 5), s)

/-- Iteration of readBlockB over n consecutive 0x40-byte blocks. -/
def readLoopB {σ : Type} (B : Backend σ) :
    Nat → Nat → List Nat → σ → Except Err (List Nat) × σ
  | 0, _, buffer, s => (.ok buffer, s)
  | n + 1, addr, buffer, s =>
    match readBlockB B addr blockSizeB s with
    | (.error e, s) => (.error e, s)
    | (.ok block, s) => readLoopB B n (addr + blockSizeB) (listSet buffer addr block) s

/-- KT8900Driver.readCodeplug: requires Connected, identifies (non-upload
mode), then reads 0x4000 / 0x40 = 256 blocks into a fresh buffer. -/
def readCodeplugB {σ : Type} (B : Backend σ) (conn : Bool) (s : σ) :
    Except Err (List Nat) × σ :=
  if conn then
    match identifyWithRetry B false s with
    | (.error e, s) => (.error e, s)
    | (.ok _, s) => readLoopB B (memSizeB / blockSizeB) 0 (List.replicate memSizeB 0) s
  else (.error .notConnected, s)

/-- KT8900Driver.writeBlock: send an X frame with payload — dropping the
leading ACK byte when omitLeadingAck is set — then accept a single
acknowledgement byte of 0x06 or 0x05. -/
def writeBlockB {σ : Type} (B : Backend σ) (addr : Nat) (data : List Nat)
    (omitLeadingAck : Bool) (s : σ) : Except Err Unit × σ :=
  if data.length ≠ txBlockSizeB then (.error (.invalidBlockSize data.length), s)
  else
    let frame := buildFrameB 0x58 addr data.length data
    let frame := if omitLeadingAck then frame.drop 1 else frame
    let s := B.write s frame
    match B.readExactly s 1 with
    | (.error e, s) => (.error e, s)
    | (.ok ack, s) =>
      if ack.getD 0 0 ≠ ackByte ∧ ack.getD 0 0 ≠ 0x05 then
        (.error (.badAck (ack.getD 0 0)), s)
      else (.ok (), s)

/-- Inner loop of KT8900Driver.writeCodeplug: n 16-byte blocks starting at
addr; the leading ACK byte is omitted exactly for the block at address 0. -/
def writeLoopB {σ : Type} (B : Backend σ) (dryRun : Bool) (data : List Nat) :
    Nat → Nat → σ → Except Err Unit × σ
  | 0, _, s => (.ok (), s)
  | n + 1, addr, s =>
    let block := (data.drop addr).take txBlockSizeB
    if dryRun then writeLoopB B dryRun data n (addr + txBlockSizeB) s
    else
      match writeBlockB B addr block (addr == 0) s with
      | (.error e, s) => (.error e, s)
      | (.ok _, s) => writeLoopB B dryRun data n (addr + txBlockSizeB) s

/-- KT8900Driver.writeCodeplug: requires Connected, rejects images shorter
than the upload region before any further I/O, identifies in upload mode, then
writes the whole upload region [0, 0x3100) in 16-byte blocks. -/
def writeCodeplugB {σ : Type} (B : Backend σ) (dryRun conn : Bool)
    (data : List Nat) (s : σ) : Except Err Unit × σ :=
  if conn then
    if data.length < uploadMemSizeB then (.error (.tooSmall data.length), s)
    else
      match identifyWithRetry B true s with
      | (.error e, s) => (.error e, s)
      | (.ok _, s) => writeLoopB B dryRun data (uploadMemSizeB / txBlockSizeB) 0 s
  else (.error .notConnected, s)

/-- KT8900Driver.connect: open the transport only; no identification. -/
def kt8900Connect {σ : Type} (B : Backend σ) (_conn : Bool) (s : σ) :
    Except Err Unit × Bool × σ :=
  (.ok (), true, B.openB s)

/-- KT8900Driver.disconnect: a no-op unless Connected; otherwise close and
become Disconnected. -/
def kt8900Disconnect {σ : Type} (B : Backend σ) (conn : Bool) (s : σ) :
    Except Err Unit × Bool × σ :=
  if conn then (.ok (), false, B.closeB s)
  else (.ok (), conn, s)

/-! ### Responsive Model-B stub transport for C1 and C6 -/

/-- Identification response served by the Model-B stub: ACK, then a payload
containing the known fingerprint "M29154", zero-padded to 50 bytes. -/
def identRespB : List Nat := ackByte :: asciiBytes "M29154" ++ List.replicate 43 0

/-- Stub transport for Model-B backed by an image: answers the magic with a
valid identification response, every S read frame with the spec-correct
[ACK, X, addr, len] header followed by the backing bytes, every X write frame
(with or without its leading ACK byte) with a single ACK, and a bare host ACK
with a device ACK.  All writes are logged. -/
structure RespStubB where
  img : List Nat
  pending : List Nat
  writes : List (List Nat)
deriving DecidableEq

def respBWrite (s : RespStubB) (d : List Nat) : RespStubB :=
  let s := { s with writes := s.writes ++ [d] }
  match d with
  | [0x55, 0x20, 0x15, 0x09, 0x16, 0x45, 0x4d, 0x02] =>
    { s with pending := s.pending ++ identRespB }
  | [0x06] => { s with pending := s.pending ++ [0x06] }
  | [0x06, 0x53, hi, lo, len] =>
    { s with pending :=
        s.pending ++ [0x06, 0x58, hi, lo, len] ++ (s.img.drop (hi * 256 + lo)).take len }
  | 0x06 :: 0x58 :: _ => { s with pending := s.pending ++ [0x06] }
  | 0x58 :: _ => { s with pending := s.pending ++ [0x06] }
  | _ => s

def respBRead (s : RespStubB) (n : Nat) : Except Err (List Nat) × RespStubB :=
  if n ≤ s.pending.length then
    (.ok (s.pending.take n), { s with pending := s.pending.drop n })
  else (.error .timeout, s)

def respBackendB : Backend RespStubB :=
  { write := respBWrite
    readExactly := respBRead
    closeB := fun s => s
    openB := fun s => s }

/-! ### Model-A synthesis scenario (src/scenarios/bf888.ts) -/

def channelCount : Nat := 16
def channelSize : Nat := 16
def channelBase : Nat := 0x0010
def rxFreqOffset : Nat := 0
def txFreqOffset : Nat := 4
def rxToneOffset : Nat := 8
def txToneOffset : Nat := 10
def flagsOffset : Nat := 12
def trailerOffset : Nat := 13
def baseFrequencyHz : Nat := 462000000
def channelStepHz : Nat := 12500

/-- encodeLbcdFrequency: Math.round(freqHz / 10), rendered as decimal digits
padded to at least 8, packed two digits per byte with the least-significant
pair first.  Extracting the digit pair ending at position 2i of the decimal
string is dividing by 10^(2i) and 10^(2i+1) and taking the last digit. -/
def encodeLbcdFrequency (freqHz : Nat) : List Nat :=
  let value := (freqHz + 5) / 10
  (List.range 4).map fun i =>
    value / 10 ^ (2 * i + 1) % 10 * 16 + value / 10 ^ (2 * i) % 10

/-- isEmptyChannel: the four leading bytes of the slot are all 0xFF. -/
def isEmptyChannel (slot : List Nat) : Bool :=
  decide (slot.getD 0 0 = 0xff ∧ slot.getD 1 0 = 0xff ∧
    slot.getD 2 0 = 0xff ∧ slot.getD 3 0 = 0xff)

/-- Body of one iteration of the synthesis loop, performing exactly the
per-channel stores of the source: both frequency fields, the four tone bytes,
the flags byte and the 3 trailer bytes. -/
def applyChannel (flags : Nat) (trailer : List Nat) (image : List Nat) (channel : Nat) :
    List Nat :=
  let offset := channelBase + channel * channelSize
  let freqBytes := encodeLbcdFrequency (baseFrequencyHz + channel * channelStepHz)
  let i1 := listSet image (offset + rxFreqOffset) freqBytes
  let i2 := listSet i1 (offset + txFreqOffset) freqBytes
  let i3 := ((((i2.set (offset + rxToneOffset) 0xff).set (offset + rxToneOffset + 1)
      0xff).set (offset + txToneOffset) 0xff).set (offset + txToneOffset + 1) 0xff)
  let i4 := i3.set (offset + flagsOffset) flags
  listSet i4 (offset + trailerOffset) trailer

/-- The synthesis loop over n channels starting at the given channel index. -/
def synthLoop (flags : Nat) (trailer : List Nat) : Nat → Nat → List Nat → List Nat
  | 0, _, image => image
  | n + 1, channel, image =>
    synthLoop flags trailer n (channel + 1) (applyChannel flags trailer image channel)

/-- template: channel 0 of the base image, base.slice(0x10, 0x20). -/
def synthTemplate (base : List Nat) : List Nat :=
  (base.drop channelBase).take channelSize

/-- flags byte used for every synthesized channel: 0 for an erased template,
else the template's flags byte. -/
def synthFlags (base : List Nat) : Nat :=
  if isEmptyChannel (synthTemplate base) then 0x00
  else (synthTemplate base).getD flagsOffset 0

/-- trailer bytes used for every synthesized channel: zeros for an erased
template, else the template's trailer. -/
def synthTrailer (base : List Nat) : List Nat :=
  if isEmptyChannel (synthTemplate base) then [0x00, 0x00, 0x00]
  else ((synthTemplate base).drop trailerOffset).take 3

/-- synthesizeFullCodeplug after its length guard: copy the base, take channel
0 of the base as the flags/trailer template (erased template gives flags 0 and
a zero trailer), then synthesize all 16 channels. -/
def synthesizeCore (base : List Nat) : List Nat :=
  synthLoop (synthFlags base) (synthTrailer base) channelCount 0 base

/-- synthesizeFullCodeplug: rejects bases shorter than the Model-A memory
size, otherwise builds the synthesized image from a fresh copy of the base. -/
def synthesizeFullCodeplug (base : List Nat) : Except Err (List Nat) :=
  if base.length < memSizeA then .error (.tooSmall base.length)
  else .ok (synthesizeCore base)

/-- The 16-byte record the synthesis writes for a channel, stated from the
spec: both frequency fields hold the LBCD encoding of base + channel * step,
the tone fields are 0xFFFF, then the flags byte and the 3 trailer bytes. -/
def channelRecord (flags : Nat) (trailer : List Nat) (channel : Nat) : List Nat :=
  encodeLbcdFrequency (baseFrequencyHz + channel * channelStepHz) ++
    encodeLbcdFrequency (baseFrequencyHz + channel * channelStepHz) ++
    [0xff, 0xff, 0xff, 0xff, flags] ++ trailer

/-- Concatenation of the records of n consecutive channels. -/
def catRecords (flags : Nat) (trailer : List Nat) : Nat → Nat → List Nat
  | 0, _ => []
  | n + 1, channel => channelRecord flags trailer channel ++ catRecords flags trailer n (channel + 1)

/-- Frame sequence the Model-B upload is specified to emit for n 16-byte
blocks starting at addr: an X header with big-endian address and length 0x10
followed by the 16 payload bytes, prefixed with the ACK byte for every block
except the one at address 0. -/
def expectedWriteFramesB (data : List Nat) : Nat → Nat → List (List Nat)
  | 0, _ => []
  | n + 1, addr =>
    ((if addr = 0 then [] else [ackByte]) ++
      [0x58, addr / 256 % 256, addr % 256, txBlockSizeB] ++ (data.drop addr).take txBlockSizeB)
      :: expectedWriteFramesB data n (addr + txBlockSizeB)

/-! ## Lemmas and claim theorems -/
@[simp] theorem scriptWrite_isOpen (s : ScriptStub) (d : List Nat) :
    (scriptWrite s d).isOpen = s.isOpen := rfl

@[simp] theorem scriptRead_isOpen (s : ScriptStub) (n : Nat) :
    (scriptRead s n).2.isOpen = s.isOpen := by
  unfold scriptRead; cases s.script <;> rfl


theorem length_listSet (l x : List Nat) (o : Nat) (h : o + x.length ≤ l.length) :
    (listSet l o x).length = l.length := by
  simp only [listSet, List.length_append, List.length_take, List.length_drop]
  omega

theorem take_listSet (l x : List Nat) (o : Nat) (h : o ≤ l.length) :
    (listSet l o x).take o = l.take o := by
  have htk : (l.take o).length = o := by simp [Nat.min_eq_left h]
  simp only [listSet, List.append_assoc]
  rw [List.take_append_eq_append_take, htk, Nat.sub_self, List.take_zero, List.append_nil,
      List.take_take, Nat.min_self]

theorem drop_listSet (l x : List Nat) (o : Nat) (h : o ≤ l.length) :
    (listSet l o x).drop (o + x.length) = l.drop (o + x.length) := by
  have hlen : (l.take o ++ x).length = o + x.length := by
    simp [List.length_take, Nat.min_eq_left h]
  calc (listSet l o x).drop (o + x.length)
      = ((l.take o ++ x) ++ l.drop (o + x.length)).drop (o + x.length) := by
        simp [listSet, List.append_assoc]
    _ = l.drop (o + x.length) := List.drop_left' hlen

theorem drop_listSet_eq (l x : List Nat) (o : Nat) (h : o ≤ l.length) :
    (listSet l o x).drop o = x ++ l.drop (o + x.length) := by
  have hlen : (l.take o).length = o := by simp [List.length_take, Nat.min_eq_left h]
  simpa [listSet, List.append_assoc] using
    @List.drop_left' Nat (l.take o) (x ++ l.drop (o + x.length)) o hlen

theorem take_append_of_length {l₁ : List Nat} (l₂ : List Nat) {n : Nat}
    (h : l₁.length = n) : (l₁ ++ l₂).take n = l₁ :=
  List.take_left' h

theorem drop_append_of_length {l₁ : List Nat} (l₂ : List Nat) {n : Nat}
    (h : l₁.length = n) : (l₁ ++ l₂).drop n = l₂ :=
  List.drop_left' h

theorem listSet_listSet_append (l x y : List Nat) (o : Nat) (h : o ≤ l.length) :
    listSet (listSet l o x) (o + x.length) y = listSet l o (x ++ y) := by
  have htk : (l.take o).length = o := by simp [List.length_take, Nat.min_eq_left h]
  have hxy : (l.take o ++ x).length = o + x.length := by simp [htk]
  unfold listSet
  rw [show l.take o ++ x ++ l.drop (o + x.length)
        = (l.take o ++ x) ++ l.drop (o + x.length) by simp [List.append_assoc]]
  rw [take_append_of_length _ hxy]
  rw [List.drop_append_eq_append_drop, hxy,
      List.drop_eq_nil_of_le (by omega : (l.take o ++ x).length ≤ o + x.length + y.length)]
  rw [List.nil_append, List.drop_drop]
  congr 1
  · simp [List.append_assoc]
  · congr 1; simp; omega

theorem listSet_overwrite (l x y : List Nat) (o : Nat)
    (h : o ≤ l.length) (hlen : y.length = x.length) :
    listSet (listSet l o x) o y = listSet l o y := by
  have h1 : (listSet l o x).take o = l.take o := take_listSet l x o h
  have h2 : (listSet l o x).drop (o + y.length) = l.drop (o + y.length) := by
    rw [hlen]; exact drop_listSet l x o h
  show (listSet l o x).take o ++ y ++ (listSet l o x).drop (o + y.length) = _
  rw [h1, h2]; rfl

theorem getD_listSet_left (l x : List Nat) (o j d : Nat) (hj : j < o) (ho : o ≤ l.length) :
    (listSet l o x).getD j d = l.getD j d := by
  have htk : (l.take o).length = o := by simp [List.length_take, Nat.min_eq_left ho]
  simp only [listSet, List.append_assoc, List.getD, List.get?_eq_getElem?]
  rw [List.getElem?_append_left (by omega), List.getElem?_take_of_lt hj]

theorem getD_listSet_right (l x : List Nat) (o j d : Nat)
    (hj : o + x.length ≤ j) (ho : o ≤ l.length) :
    (listSet l o x).getD j d = l.getD j d := by
  have htk : (l.take o).length = o := by simp [List.length_take, Nat.min_eq_left ho]
  have hxlen : (l.take o ++ x).length = o + x.length := by simp [htk]
  simp only [listSet, List.getD, List.get?_eq_getElem?]
  rw [List.getElem?_append_right (by rw [hxlen]; omega), hxlen, List.getElem?_drop]
  have hidx : o + x.length + (j - (o + x.length)) = j := by omega
  rw [hidx]
/-! ### C2: short write input is rejected before any transport I/O -/

/-- C2: for both models, writeCodeplug on a connected driver with an input
image strictly shorter than the model's minimum (Model-A 0x03E0, Model-B
0x3100) fails with the too-small validation error and performs no transport
I/O at all: the result is the same for every backend and the backend state is
returned unchanged. -/
theorem writeCodeplug_short_input_rejected_without_io :
    (∀ (σ : Type) (B : Backend σ) (fuel : Nat) (validators : List (List Nat → Bool))
      (dryRun : Bool) (data : List Nat) (s : σ), data.length < memSizeA →
      writeCodeplugA B fuel validators dryRun true data s = (.error (.tooSmall data.length), s))
    ∧ (∀ (σ : Type) (B : Backend σ) (dryRun : Bool) (data : List Nat) (s : σ),
      data.length < uploadMemSizeB →
      writeCodeplugB B dryRun true data s = (.error (.tooSmall data.length), s)) := by
  constructor
  · intro σ B fuel validators dryRun data s h
    unfold writeCodeplugA
    rw [if_pos rfl, if_pos h]
  · intro σ B dryRun data s h
    unfold writeCodeplugB
    rw [if_pos rfl, if_pos h]

/-- Witness for C2 at the scripted stub with an empty input image. -/
theorem writeCodeplug_short_input_rejected_without_io_witness :
    ([] : List Nat).length < memSizeA ∧ ([] : List Nat).length < uploadMemSizeB ∧
    writeCodeplugA scriptBackend 5 [] false true [] ⟨true, [], []⟩ =
      (.error (.tooSmall 0), ⟨true, [], []⟩) ∧
    writeCodeplugB scriptBackend false true [] ⟨true, [], []⟩ =
      (.error (.tooSmall 0), ⟨true, [], []⟩) :=
  ⟨by decide, by decide,
    writeCodeplug_short_input_rejected_without_io.1 ScriptStub scriptBackend 5 [] false []
      ⟨true, [], []⟩ (by decide),
    writeCodeplug_short_input_rejected_without_io.2 ScriptStub scriptBackend false []
      ⟨true, [], []⟩ (by decide)⟩

/-! ### C9: disconnect behaviour -/

/-- C9 counterexample: on a driver that never reached Connected (for example
after a failed strict-variant connect that left the transport open), disconnect
of either driver returns immediately and does NOT close the transport, so the
claim that disconnect releases the transport from any state is false. -/
theorem disconnect_not_connected_leaves_transport_open :
    bf888Disconnect scriptBackend false ⟨true, [], []⟩ = (.ok (), false, ⟨true, [], []⟩) ∧
    kt8900Disconnect scriptBackend false ⟨true, [], []⟩ = (.ok (), false, ⟨true, [], []⟩) ∧
    (⟨true, [], []⟩ : ScriptStub).isOpen = true := ⟨rfl, rfl, rfl⟩

/-- C9 amended: disconnect on a Connected driver closes the transport (Model-A
first sending the exit command "E") and leaves the driver Disconnected; on a
driver that is not Connected it is a no-op that neither closes nor touches the
transport. -/
theorem disconnect_behaviour :
    (∀ s : ScriptStub, bf888Disconnect scriptBackend true s =
      (.ok (), false, ⟨false, s.script, s.writes ++ [asciiBytes "E"]⟩))
    ∧ (∀ s : ScriptStub, kt8900Disconnect scriptBackend true s =
      (.ok (), false, ⟨false, s.script, s.writes⟩))
    ∧ (∀ s : ScriptStub, bf888Disconnect scriptBackend false s = (.ok (), false, s))
    ∧ (∀ s : ScriptStub, kt8900Disconnect scriptBackend false s = (.ok (), false, s)) := by
  refine ⟨fun s => rfl, fun s => rfl, fun s => rfl, fun s => rfl⟩

/-- Witness for the amended C9 at a concrete open transport. -/
theorem disconnect_behaviour_witness :
    bf888Disconnect scriptBackend true ⟨true, [], []⟩ =
      (.ok (), false, ⟨false, [], [asciiBytes "E"]⟩) ∧
    kt8900Disconnect scriptBackend true ⟨true, [], []⟩ = (.ok (), false, ⟨false, [], []⟩) :=
  ⟨disconnect_behaviour.1 ⟨true, [], []⟩, disconnect_behaviour.2.1 ⟨true, [], []⟩⟩

/-! ### Closed form of the synthesis loop -/

theorem length_encodeLbcd (freqHz : Nat) : (encodeLbcdFrequency freqHz).length = 4 := by
  simp [encodeLbcdFrequency]

theorem listSet_nil (l : List Nat) (o : Nat) : listSet l o [] = l := by
  simp [listSet]

theorem set_eq_listSet (l : List Nat) (i v : Nat) (h : i < l.length) :
    l.set i v = listSet l i [v] := by
  rw [List.set_eq_take_append_cons_drop]
  simp [h, listSet]

theorem listSet_set_merge (l x : List Nat) (o v : Nat) (h : o + x.length < l.length) :
    (listSet l o x).set (o + x.length) v = listSet l o (x ++ [v]) := by
  rw [set_eq_listSet _ _ _ (by rw [length_listSet l x o (le_of_lt h)]; exact h)]
  exact listSet_listSet_append l x [v] o (by omega)

theorem length_channelRecord (flags : Nat) (trailer : List Nat) (channel : Nat)
    (ht : trailer.length = 3) : (channelRecord flags trailer channel).length = 16 := by
  simp [channelRecord, length_encodeLbcd, ht]

theorem applyChannel_eq (flags : Nat) (trailer image : List Nat) (channel : Nat)
    (_ht : trailer.length = 3)
    (hfit : channelBase + channel * channelSize + channelSize ≤ image.length) :
    applyChannel flags trailer image channel =
      listSet image (channelBase + channel * channelSize)
        (channelRecord flags trailer channel) := by
  have hbs : channelBase + channel * channelSize + channelSize
      = 16 + channel * 16 + 16 := rfl
  rw [hbs] at hfit
  set o := channelBase + channel * channelSize with hodef
  have hoeq : o = 16 + channel * 16 := rfl
  set F := encodeLbcdFrequency (baseFrequencyHz + channel * channelStepHz) with hFdef
  have hF : F.length = 4 := length_encodeLbcd _
  have h1 : listSet (listSet image o F) (o + 4) F = listSet image o (F ++ F) := by
    have h := listSet_listSet_append image F F o (by omega)
    rwa [hF] at h
  have e2 : (F ++ F).length = 8 := by simp [hF]
  have h2 : (listSet image o (F ++ F)).set (o + 8) 0xff =
      listSet image o (F ++ F ++ [0xff]) := by
    have h := listSet_set_merge image (F ++ F) o 0xff (by rw [e2]; omega)
    rw [e2] at h
    rw [h, List.append_assoc]
  have e3 : (F ++ F ++ [0xff]).length = 9 := by simp [hF]
  have h3 : (listSet image o (F ++ F ++ [0xff])).set (o + 9) 0xff =
      listSet image o (F ++ F ++ [0xff, 0xff]) := by
    have h := listSet_set_merge image (F ++ F ++ [0xff]) o 0xff (by rw [e3]; omega)
    rw [e3] at h
    rw [h]
    simp [List.append_assoc]
  have e4 : (F ++ F ++ [0xff, 0xff]).length = 10 := by simp [hF]
  have h4 : (listSet image o (F ++ F ++ [0xff, 0xff])).set (o + 10) 0xff =
      listSet image o (F ++ F ++ [0xff, 0xff, 0xff]) := by
    have h := listSet_set_merge image (F ++ F ++ [0xff, 0xff]) o 0xff (by rw [e4]; omega)
    rw [e4] at h
    rw [h]
    simp [List.append_assoc]
  have e5 : (F ++ F ++ [0xff, 0xff, 0xff]).length = 11 := by simp [hF]
  have h5 : (listSet image o (F ++ F ++ [0xff, 0xff, 0xff])).set (o + 11) 0xff =
      listSet image o (F ++ F ++ [0xff, 0xff, 0xff, 0xff]) := by
    have h := listSet_set_merge image (F ++ F ++ [0xff, 0xff, 0xff]) o 0xff
      (by rw [e5]; omega)
    rw [e5] at h
    rw [h]
    simp [List.append_assoc]
  have e6 : (F ++ F ++ [0xff, 0xff, 0xff, 0xff]).length = 12 := by simp [hF]
  have h6 : (listSet image o (F ++ F ++ [0xff, 0xff, 0xff, 0xff])).set (o + 12) flags =
      listSet image o (F ++ F ++ [0xff, 0xff, 0xff, 0xff, flags]) := by
    have h := listSet_set_merge image (F ++ F ++ [0xff, 0xff, 0xff, 0xff]) o flags
      (by rw [e6]; omega)
    rw [e6] at h
    rw [h]
    simp [List.append_assoc]
  have e7 : (F ++ F ++ [0xff, 0xff, 0xff, 0xff, flags]).length = 13 := by simp [hF]
  have h7 : listSet (listSet image o (F ++ F ++ [0xff, 0xff, 0xff, 0xff, flags]))
      (o + 13) trailer =
      listSet image o (F ++ F ++ [0xff, 0xff, 0xff, 0xff, flags] ++ trailer) := by
    have h := listSet_listSet_append image (F ++ F ++ [0xff, 0xff, 0xff, 0xff, flags])
      trailer o (by omega)
    rw [e7] at h
    rw [h]
  have i9 : o + 8 + 1 = o + 9 := by omega
  have i11 : o + 10 + 1 = o + 11 := by omega
  show listSet ((((((listSet (listSet image (o + rxFreqOffset) F) (o + txFreqOffset)
      F).set (o + rxToneOffset) 0xff).set (o + rxToneOffset + 1) 0xff).set
      (o + txToneOffset) 0xff).set (o + txToneOffset + 1) 0xff).set
      (o + flagsOffset) flags) (o + trailerOffset) trailer = _
  have i0 : o + rxFreqOffset = o := rfl
  have it4 : o + txFreqOffset = o + 4 := rfl
  have it8 : o + rxToneOffset = o + 8 := rfl
  have it10 : o + txToneOffset = o + 10 := rfl
  have it12 : o + flagsOffset = o + 12 := rfl
  have it13 : o + trailerOffset = o + 13 := rfl
  rw [i0, it4, it8, it10, it12, it13, h1, h2, i9, h3, h4, i11, h5, h6, h7]
  simp only [channelRecord, ← hFdef]

theorem length_catRecords (flags : Nat) (trailer : List Nat) (ht : trailer.length = 3)
    (n : Nat) : ∀ channel : Nat, (catRecords flags trailer n channel).length = n * 16 := by
  induction n with
  | zero => intro channel; simp [catRecords]
  | succ n ih =>
    intro channel
    simp only [catRecords, List.length_append,
      length_channelRecord flags trailer channel ht, ih (channel + 1)]
    omega

theorem synthLoop_eq (flags : Nat) (trailer : List Nat) (ht : trailer.length = 3)
    (n : Nat) : ∀ (channel : Nat) (image : List Nat),
    channelBase + channel * channelSize + n * channelSize ≤ image.length →
    synthLoop flags trailer n channel image =
      listSet image (channelBase + channel * channelSize)
        (catRecords flags trailer n channel) := by
  induction n with
  | zero =>
    intro channel image _
    show image = _
    rw [show catRecords flags trailer 0 channel = [] from rfl, listSet_nil]
  | succ n ih =>
    intro channel image h
    have hb : channelBase = 16 := rfl
    have hs : channelSize = 16 := rfl
    rw [hb, hs] at h
    have hfit : channelBase + channel * channelSize + channelSize ≤ image.length := by
      rw [hb, hs]; omega
    show synthLoop flags trailer n (channel + 1) (applyChannel flags trailer image channel) = _
    rw [applyChannel_eq flags trailer image channel ht hfit]
    have hrec : (channelRecord flags trailer channel).length = 16 :=
      length_channelRecord flags trailer channel ht
    have hlen : (listSet image (channelBase + channel * channelSize)
        (channelRecord flags trailer channel)).length = image.length := by
      apply length_listSet
      rw [hrec, hb, hs]; omega
    have ihs := ih (channel + 1)
      (listSet image (channelBase + channel * channelSize) (channelRecord flags trailer channel))
      (by rw [hlen, hb, hs]; omega)
    rw [ihs]
    have ho2 : channelBase + (channel + 1) * channelSize =
        channelBase + channel * channelSize + (channelRecord flags trailer channel).length := by
      rw [hrec, hb, hs]; ring
    rw [ho2, listSet_listSet_append image (channelRecord flags trailer channel)
      (catRecords flags trailer n (channel + 1)) (channelBase + channel * channelSize)
      (by rw [hb, hs]; omega)]
    rfl

theorem length_synthTemplate (base : List Nat) (h : memSizeA ≤ base.length) :
    (synthTemplate base).length = 16 := by
  have hm : memSizeA = 992 := rfl
  rw [hm] at h
  unfold synthTemplate
  simp only [List.length_take, List.length_drop]
  have hb : channelBase = 16 := rfl
  have hs : channelSize = 16 := rfl
  rw [hb, hs]
  omega

theorem length_synthTrailer (base : List Nat) (h : memSizeA ≤ base.length) :
    (synthTrailer base).length = 3 := by
  unfold synthTrailer
  split
  · rfl
  · have htpl := length_synthTemplate base h
    simp only [List.length_take, List.length_drop, htpl]
    rw [show trailerOffset = 13 from rfl]
    omega

theorem synthesizeCore_eq (base : List Nat) (h : memSizeA ≤ base.length) :
    synthesizeCore base =
      listSet base channelBase
        (catRecords (synthFlags base) (synthTrailer base) 16 0) := by
  have ht := length_synthTrailer base h
  have hm : memSizeA = 992 := rfl
  rw [hm] at h
  have hl := synthLoop_eq (synthFlags base) (synthTrailer base) ht 16 0 base
    (by rw [show channelBase = 16 from rfl, show channelSize = 16 from rfl]; omega)
  show synthLoop (synthFlags base) (synthTrailer base) 16 0 base = _
  rw [hl]
  congr 1

theorem channelRecord_rx (flags : Nat) (trailer : List Nat) (channel : Nat) :
    (channelRecord flags trailer channel).take 4 =
      encodeLbcdFrequency (baseFrequencyHz + channel * channelStepHz) := by
  unfold channelRecord
  rw [List.append_assoc, List.append_assoc]
  exact take_append_of_length _ (length_encodeLbcd _)

theorem channelRecord_tx (flags : Nat) (trailer : List Nat) (channel : Nat) :
    ((channelRecord flags trailer channel).drop 4).take 4 =
      encodeLbcdFrequency (baseFrequencyHz + channel * channelStepHz) := by
  unfold channelRecord
  rw [List.append_assoc, List.append_assoc]
  rw [drop_append_of_length _ (length_encodeLbcd _)]
  rw [← List.append_assoc]
  exact take_append_of_length _ (length_encodeLbcd _)

theorem catRecords_extract (flags : Nat) (trailer : List Nat) (ht : trailer.length = 3)
    (n : Nat) : ∀ channel i : Nat, i < n →
    ((catRecords flags trailer n channel).drop (i * 16)).take 16 =
      channelRecord flags trailer (channel + i) := by
  induction n with
  | zero => intro _ i hi; omega
  | succ n ih =>
    intro channel i hi
    have hrec : (channelRecord flags trailer channel).length = 16 :=
      length_channelRecord flags trailer channel ht
    cases i with
    | zero =>
      show ((channelRecord flags trailer channel ++
        catRecords flags trailer n (channel + 1)).drop (0 * 16)).take 16 = _
      rw [Nat.zero_mul, List.drop_zero, take_append_of_length _ hrec, Nat.add_zero]
    | succ i =>
      show ((channelRecord flags trailer channel ++
        catRecords flags trailer n (channel + 1)).drop ((i + 1) * 16)).take 16 = _
      rw [List.drop_append_eq_append_drop, hrec]
      have hnil : (channelRecord flags trailer channel).drop ((i + 1) * 16) = [] :=
        List.drop_eq_nil_of_le (by rw [hrec]; omega)
      rw [hnil, List.nil_append]
      have hsub : (i + 1) * 16 - 16 = i * 16 := by omega
      rw [hsub, ih (channel + 1) i (by omega)]
      congr 1
      omega

theorem slice_listSet (l x : List Nat) (o k m : Nat) (ho : o ≤ l.length)
    (hk : k + m ≤ x.length) :
    ((listSet l o x).drop (o + k)).take m = (x.drop k).take m := by
  have h0 : (listSet l o x).drop (o + k) = ((listSet l o x).drop o).drop k := by
    rw [List.drop_drop]
  have h1 : (listSet l o x).drop (o + k) =
      x.drop k ++ (l.drop (o + x.length)).drop (k - x.length) := by
    rw [h0, drop_listSet_eq l x o ho, List.drop_append_eq_append_drop]
  rw [h1, List.take_append_eq_append_take]
  have h2 : m - (x.drop k).length = 0 := by
    simp only [List.length_drop]; omega
  rw [h2, List.take_zero, List.append_nil]

theorem synthTemplate_core (base : List Nat) (h : memSizeA ≤ base.length) :
    synthTemplate (synthesizeCore base) =
      channelRecord (synthFlags base) (synthTrailer base) 0 := by
  have ht := length_synthTrailer base h
  have hR : (catRecords (synthFlags base) (synthTrailer base) 16 0).length = 256 := by
    rw [length_catRecords _ _ ht 16 0]
  have hm : memSizeA = 992 := rfl
  rw [hm] at h
  unfold synthTemplate
  rw [synthesizeCore_eq base (by rw [hm]; exact h)]
  rw [show channelBase = 16 from rfl, show channelSize = 16 from rfl]
  have hs := slice_listSet base (catRecords (synthFlags base) (synthTrailer base) 16 0)
    16 0 16 (by omega) (by rw [hR]; omega)
  rw [Nat.add_zero] at hs
  rw [hs, List.drop_zero]
  have hex := catRecords_extract (synthFlags base) (synthTrailer base) ht 16 0 0 (by omega)
  rw [Nat.zero_mul, List.drop_zero, Nat.add_zero] at hex
  exact hex

theorem channelRecord_zero_cons (flags : Nat) (trailer : List Nat) :
    channelRecord flags trailer 0 =
      0 :: 0 :: 0x20 :: 0x46 :: 0 :: 0 :: 0x20 :: 0x46 ::
        0xff :: 0xff :: 0xff :: 0xff :: flags :: trailer := by
  have hfreq0 : encodeLbcdFrequency (baseFrequencyHz + 0 * channelStepHz) =
      [0x00, 0x00, 0x20, 0x46] := by decide
  rw [channelRecord, hfreq0]
  rfl

theorem isEmptyChannel_record_false (flags : Nat) (trailer : List Nat) :
    isEmptyChannel (channelRecord flags trailer 0) = false := by
  rw [channelRecord_zero_cons]
  rfl

theorem synthFlags_core (base : List Nat) (h : memSizeA ≤ base.length) :
    synthFlags (synthesizeCore base) = synthFlags base := by
  conv_lhs => rw [synthFlags]
  rw [synthTemplate_core base h, isEmptyChannel_record_false]
  simp only [Bool.false_eq_true, if_false]
  rw [channelRecord_zero_cons]
  rfl

theorem synthTrailer_core (base : List Nat) (h : memSizeA ≤ base.length) :
    synthTrailer (synthesizeCore base) = synthTrailer base := by
  have ht := length_synthTrailer base h
  conv_lhs => rw [synthTrailer]
  rw [synthTemplate_core base h, isEmptyChannel_record_false]
  simp only [Bool.false_eq_true, if_false]
  rw [channelRecord_zero_cons]
  show ((synthTrailer base).take 3) = synthTrailer base
  exact List.take_of_length_le (le_of_eq ht)

/-! ### C8: synthesis is deterministic and idempotent -/

/-- C8: synthesizeFullCodeplug is deterministic (a pure function of the base
image) and idempotent: for every base of length at least 0x03E0 it succeeds,
its core is unchanged by a second application, and running the whole
synthesizer twice equals running it once. -/
theorem synthesize_idempotent (base : List Nat) (h : memSizeA ≤ base.length) :
    synthesizeFullCodeplug base = .ok (synthesizeCore base) ∧
    synthesizeCore (synthesizeCore base) = synthesizeCore base ∧
    (synthesizeFullCodeplug base).bind synthesizeFullCodeplug =
      synthesizeFullCodeplug base := by
  have ht := length_synthTrailer base h
  have hR : (catRecords (synthFlags base) (synthTrailer base) 16 0).length = 256 := by
    rw [length_catRecords _ _ ht 16 0]
  have hm : memSizeA = 992 := rfl
  have h992 : 992 ≤ base.length := by rw [hm] at h; exact h
  have hcorelen : (synthesizeCore base).length = base.length := by
    rw [synthesizeCore_eq base h]
    apply length_listSet
    rw [hR, show channelBase = 16 from rfl]
    omega
  have hok : synthesizeFullCodeplug base = .ok (synthesizeCore base) := by
    unfold synthesizeFullCodeplug
    rw [if_neg (by omega)]
  have hidem : synthesizeCore (synthesizeCore base) = synthesizeCore base := by
    have h2 : memSizeA ≤ (synthesizeCore base).length := by rw [hcorelen]; exact h
    rw [synthesizeCore_eq (synthesizeCore base) h2, synthFlags_core base h,
      synthTrailer_core base h, synthesizeCore_eq base h]
    apply listSet_overwrite
    · rw [show channelBase = 16 from rfl]; omega
    · rfl
  refine ⟨hok, hidem, ?_⟩
  rw [hok]
  simp only [Except.bind]
  unfold synthesizeFullCodeplug
  rw [if_neg (by rw [hcorelen]; omega), hidem]

/-- Witness for C8 at an all-zero base image of exactly 0x03E0 bytes. -/
theorem synthesize_idempotent_witness :
    memSizeA ≤ (List.replicate 992 0).length ∧
    synthesizeCore (synthesizeCore (List.replicate 992 0)) =
      synthesizeCore (List.replicate 992 0) :=
  ⟨by rw [List.length_replicate]; decide, (synthesize_idempotent (List.replicate 992 0)
    (by rw [List.length_replicate]; decide)).2.1⟩

/-! ### C7: channel frequency encoding -/

/-- C7: the LBCD encoder maps 462,000,000 Hz to exactly [0x00, 0x00, 0x20,
0x46], and for every channel index i < 16 the synthesized image stores the
encoding of 462,000,000 + i * 12,500 Hz in both the receive-frequency field
(offset 0x10 + 16 i) and the transmit-frequency field (offset 0x10 + 16 i + 4)
of channel i. -/
theorem lbcd_frequency_encoding :
    encodeLbcdFrequency 462000000 = [0x00, 0x00, 0x20, 0x46] ∧
    ∀ base out : List Nat, synthesizeFullCodeplug base = .ok out →
      ∀ i : Nat, i < 16 →
        (out.drop (0x10 + i * 16)).take 4 =
          encodeLbcdFrequency (462000000 + i * 12500) ∧
        (out.drop (0x10 + i * 16 + 4)).take 4 =
          encodeLbcdFrequency (462000000 + i * 12500) := by
  refine ⟨by decide, ?_⟩
  intro base out h i hi
  unfold synthesizeFullCodeplug at h
  split at h
  · exact absurd h (by simp)
  · rename_i hnlt
    have hlen : memSizeA ≤ base.length := Nat.le_of_not_lt hnlt
    injection h with h
    subst h
    have ht := length_synthTrailer base hlen
    have hR : (catRecords (synthFlags base) (synthTrailer base) 16 0).length = 256 := by
      rw [length_catRecords _ _ ht 16 0]
    have hm : memSizeA = 992 := rfl
    have h992 : 992 ≤ base.length := by rw [hm] at hlen; exact hlen
    have hcore := synthesizeCore_eq base hlen
    have hb : channelBase = 16 := rfl
    have hex := catRecords_extract (synthFlags base) (synthTrailer base) ht 16 0 i hi
    rw [Nat.zero_add] at hex
    have hfe : baseFrequencyHz + i * channelStepHz = 462000000 + i * 12500 := rfl
    constructor
    · rw [hcore, hb]
      have hs1 := slice_listSet base (catRecords (synthFlags base) (synthTrailer base) 16 0)
        16 (i * 16) 4 (by omega) (by rw [hR]; omega)
      rw [hs1]
      set A := (catRecords (synthFlags base) (synthTrailer base) 16 0).drop (i * 16) with hA
      have h16 : A.take 4 = (A.take 16).take 4 := by
        rw [List.take_take]; norm_num
      rw [h16, hex, ← hfe]
      exact channelRecord_rx (synthFlags base) (synthTrailer base) i
    · rw [hcore, hb]
      have hidx : 16 + i * 16 + 4 = 16 + (i * 16 + 4) := by omega
      rw [hidx]
      have hs2 := slice_listSet base (catRecords (synthFlags base) (synthTrailer base) 16 0)
        16 (i * 16 + 4) 4 (by omega) (by rw [hR]; omega)
      rw [hs2, ← List.drop_drop]
      set A := (catRecords (synthFlags base) (synthTrailer base) 16 0).drop (i * 16) with hA
      have h12 : (A.drop 4).take 4 = ((A.take 16).drop 4).take 4 := by
        rw [List.drop_take, List.take_take]; norm_num
      rw [h12, hex, ← hfe]
      exact channelRecord_tx (synthFlags base) (synthTrailer base) i

/-- Witness for C7 at an all-zero base image and channel 0. -/
theorem lbcd_frequency_encoding_witness :
    synthesizeFullCodeplug (List.replicate 992 0) =
      .ok (synthesizeCore (List.replicate 992 0)) ∧
    ((synthesizeCore (List.replicate 992 0)).drop 0x10).take 4 =
      encodeLbcdFrequency 462000000 := by
  have hok : synthesizeFullCodeplug (List.replicate 992 0) =
      .ok (synthesizeCore (List.replicate 992 0)) :=
    (synthesize_idempotent (List.replicate 992 0) (by rw [List.length_replicate]; decide)).1
  refine ⟨hok, ?_⟩
  have h := (lbcd_frequency_encoding.2 (List.replicate 992 0)
    (synthesizeCore (List.replicate 992 0)) hok 0 (by decide)).1
  have e1 : (0x10 : Nat) + 0 * 16 = 0x10 := by decide
  have e2 : (462000000 : Nat) + 0 * 12500 = 462000000 := by decide
  rw [e1, e2] at h
  exact h

/-! ### C10: synthesis does not touch bytes outside the channel records -/

/-- C10: synthesizeFullCodeplug returns a fresh buffer of the same length as
its argument (the argument itself, modelled as a pure value, is unchanged),
and every byte outside the 16 channel records — outside offsets
[0x0010, 0x0110) — equals the corresponding byte of the base image. -/
theorem synthesize_frame_effect (base out : List Nat)
    (h : synthesizeFullCodeplug base = .ok out) :
    out.length = base.length ∧
    ∀ j : Nat, j < 0x10 ∨ 0x110 ≤ j → out.getD j 0 = base.getD j 0 := by
  unfold synthesizeFullCodeplug at h
  split at h
  · exact absurd h (by simp)
  · rename_i hnlt
    have hlen : memSizeA ≤ base.length := Nat.le_of_not_lt hnlt
    injection h with h
    subst h
    have ht := length_synthTrailer base hlen
    have hR : (catRecords (synthFlags base) (synthTrailer base) 16 0).length = 256 := by
      rw [length_catRecords _ _ ht 16 0]
    have hm : memSizeA = 992 := rfl
    have h992 : 992 ≤ base.length := by rw [hm] at hlen; exact hlen
    have hb : channelBase = 16 := rfl
    constructor
    · rw [synthesizeCore_eq base hlen, hb]
      apply length_listSet
      rw [hR]; omega
    · intro j hj
      rw [synthesizeCore_eq base hlen, hb]
      rcases hj with hj | hj
      · exact getD_listSet_left base _ 16 j 0 hj (by omega)
      · refine getD_listSet_right base _ 16 j 0 ?_ (by omega)
        rw [hR]; omega

/-- Witness for C10 at an all-one base image, checking the byte at 0x0000. -/
theorem synthesize_frame_effect_witness :
    synthesizeFullCodeplug (List.replicate 992 1) =
      .ok (synthesizeCore (List.replicate 992 1)) ∧
    (synthesizeCore (List.replicate 992 1)).length = 992 ∧
    (synthesizeCore (List.replicate 992 1)).getD 0 0 = (List.replicate 992 1).getD 0 0 := by
  have hok : synthesizeFullCodeplug (List.replicate 992 1) =
      .ok (synthesizeCore (List.replicate 992 1)) :=
    (synthesize_idempotent (List.replicate 992 1) (by rw [List.length_replicate]; decide)).1
  have h := synthesize_frame_effect (List.replicate 992 1)
    (synthesizeCore (List.replicate 992 1)) hok
  exact ⟨hok, by rw [h.1, List.length_replicate], h.2 0 (by decide)⟩

/-! ### C1: readCodeplug against a spec-correct stub returns the backing image -/

theorem respBackendA_write : respBackendA.write = respAWrite := rfl

theorem respBackendA_read : respBackendA.readExactly = respARead := rfl

theorem respARead_exact (img p : List Nat) (n : Nat) (h : p.length = n) :
    respARead ⟨img, p⟩ n = (.ok p, ⟨img, []⟩) := by
  unfold respARead
  rw [if_pos (le_of_eq h.symm)]
  rw [List.take_of_length_le (le_of_eq h), List.drop_eq_nil_of_le (le_of_eq h)]

theorem readBlockA_stub (img : List Nat) (fuel addr : Nat) (himg : img.length = 992)
    (haddr : addr + 8 ≤ 992) :
    readBlockA respBackendA (fuel + 1) addr 8 ⟨img, []⟩ =
      (.ok ((img.drop addr).take 8), ⟨img, []⟩) := by
  have hdec : addr / 256 % 256 * 256 + addr % 256 = addr := by omega
  have hsl : ((img.drop addr).take 8).length = 8 := by
    rw [List.length_take, List.length_drop, himg]
    omega
  have hw1 : respAWrite ⟨img, []⟩ (buildHeader 0x52 addr 8) =
      ⟨img, [0x57, addr / 256 % 256, addr % 256, 8] ++ (img.drop addr).take 8⟩ := by
    simp only [buildHeader, respAWrite, hdec]
    norm_num
  have hplen : ([0x57, addr / 256 % 256, addr % 256, 8] ++
      (img.drop addr).take 8).length = 4 + 8 := by
    rw [List.length_append, hsl]
    rfl
  have hr1 := respARead_exact img
    ([0x57, addr / 256 % 256, addr % 256, 8] ++ (img.drop addr).take 8) (4 + 8) hplen
  have hhdr : ([0x57, addr / 256 % 256, addr % 256, 8] ++
      (img.drop addr).take 8).take 4 = buildHeader 0x57 addr 8 := by
    rw [take_append_of_length _ (by rfl)]
    simp [buildHeader]
  have hdata : ([0x57, addr / 256 % 256, addr % 256, 8] ++
      (img.drop addr).take 8).drop 4 = (img.drop addr).take 8 :=
    drop_append_of_length _ (by rfl)
  have hw2 : respAWrite ⟨img, []⟩ [ackByte] = ⟨img, [6]⟩ := rfl
  have hack : readUntilAck respBackendA (fuel + 1) ⟨img, [6]⟩ = (.ok (), ⟨img, []⟩) := rfl
  simp only [readBlockA, respBackendA_write, respBackendA_read, hw1, hr1, hhdr, hdata,
    hw2, hack, eq_self_iff_true, if_true]

theorem take_listSet_full (l x : List Nat) (o : Nat) (ho : o ≤ l.length) :
    (listSet l o x).take (o + x.length) = l.take o ++ x := by
  unfold listSet
  exact take_append_of_length _
    (by rw [List.length_append, List.length_take, Nat.min_eq_left ho])

theorem readLoopA_stub (img : List Nat) (himg : img.length = 992) (fuel : Nat) (n : Nat) :
    ∀ (addr : Nat) (buffer : List Nat), addr + 8 * n = 992 → buffer.length = 992 →
    readLoopA respBackendA (fuel + 1) n addr buffer ⟨img, []⟩ =
      (.ok (buffer.take addr ++ img.drop addr), ⟨img, []⟩) := by
  induction n with
  | zero =>
    intro addr buffer haddr hbuf
    have ha : addr = 992 := by omega
    subst ha
    show (Except.ok buffer, (⟨img, []⟩ : RespStubA)) = _
    rw [List.take_of_length_le (le_of_eq hbuf), List.drop_eq_nil_of_le (le_of_eq himg),
      List.append_nil]
  | succ n ih =>
    intro addr buffer haddr hbuf
    have haddr8 : addr + 8 ≤ 992 := by omega
    have hslen : ((img.drop addr).take 8).length = 8 := by
      rw [List.length_take, List.length_drop, himg]
      omega
    simp only [readLoopA]
    rw [show blockSizeA = 8 from rfl, readBlockA_stub img fuel addr himg haddr8]
    show readLoopA respBackendA (fuel + 1) n (addr + 8)
      (listSet buffer addr ((img.drop addr).take 8)) ⟨img, []⟩ = _
    have hlen2 : (listSet buffer addr ((img.drop addr).take 8)).length = 992 := by
      rw [length_listSet buffer _ addr (by rw [hslen, hbuf]; omega), hbuf]
    rw [ih (addr + 8) (listSet buffer addr ((img.drop addr).take 8)) (by omega) hlen2]
    have htkfull := take_listSet_full buffer ((img.drop addr).take 8) addr
      (by rw [hbuf]; omega)
    rw [hslen] at htkfull
    rw [htkfull, List.append_assoc]
    have hdr : (img.drop addr).take 8 ++ img.drop (addr + 8) = img.drop addr := by
      rw [← List.drop_drop]
      exact List.take_append_drop 8 (img.drop addr)
    rw [hdr]

theorem readCodeplugA_stub (img : List Nat) (himg : img.length = 992) (fuel : Nat) :
    readCodeplugA respBackendA (fuel + 1) true ⟨img, []⟩ = (.ok img, ⟨img, []⟩) := by
  unfold readCodeplugA
  rw [if_pos rfl]
  have h := readLoopA_stub img himg fuel (memSizeA / blockSizeA) 0
    (List.replicate memSizeA 0) (by decide)
    (by rw [List.length_replicate]; rfl)
  rw [h, List.take_zero, List.drop_zero, List.nil_append]

theorem respBackendB_write : respBackendB.write = respBWrite := rfl

theorem respBackendB_read : respBackendB.readExactly = respBRead := rfl

theorem respBRead_exact (img p : List Nat) (w : List (List Nat)) (n : Nat)
    (h : p.length = n) : respBRead ⟨img, p, w⟩ n = (.ok p, ⟨img, [], w⟩) := by
  unfold respBRead
  rw [if_pos (le_of_eq h.symm)]
  rw [List.take_of_length_le (le_of_eq h), List.drop_eq_nil_of_le (le_of_eq h)]

theorem identifyOnce_stubB (img : List Nat) (w : List (List Nat))
    (himg : img.length = 16384) :
    identifyOnce respBackendB false ⟨img, [], w⟩ =
      (.ok (), ⟨img, [],
        (w ++ [magicB]) ++ [buildFrameB 0x53 extraIdAddr extraIdLen []]⟩) := by
  have hw1 : respBWrite ⟨img, [], w⟩ magicB = ⟨img, identRespB, w ++ [magicB]⟩ := rfl
  have hr1 := respBRead_exact img identRespB (w ++ [magicB]) identLengthB (by decide)
  have hc1 : (identRespB.getD 0 0 ≠ ackByte) = False := eq_false (by decide)
  have hc2 : (identRespB.length ≠ identLengthB) = False := eq_false (by decide)
  have hc3 : (¬ (fileIdsB.any fun id => containsSubarray identRespB id) = true) = False :=
    eq_false (by decide)
  have hw2 : respBWrite ⟨img, [], w ++ [magicB]⟩ (buildFrameB 0x53 extraIdAddr extraIdLen []) =
      ⟨img, [0x06, 0x58, 0x3d, 0xf0, 16] ++ (img.drop 15856).take 16,
        (w ++ [magicB]) ++ [buildFrameB 0x53 extraIdAddr extraIdLen []]⟩ := rfl
  have hslice : ((img.drop 15856).take 16).length = 16 := by
    rw [List.length_take, List.length_drop, himg]
    norm_num
  have hplen : ([0x06, 0x58, 0x3d, 0xf0, 16] ++
      (img.drop 15856).take 16).length = 1 + 4 + extraIdLen := by
    rw [List.length_append, hslice]
    rfl
  have hr2 := respBRead_exact img ([0x06, 0x58, 0x3d, 0xf0, 16] ++ (img.drop 15856).take 16)
    ((w ++ [magicB]) ++ [buildFrameB 0x53 extraIdAddr extraIdLen []]) (1 + 4 + extraIdLen) hplen
  have hc4 : ((([0x06, 0x58, 0x3d, 0xf0, 16] ++ (img.drop 15856).take 16).getD 0 0 ≠ ackByte) ∧
      (([0x06, 0x58, 0x3d, 0xf0, 16] ++ (img.drop 15856).take 16).getD 0 0 ≠ 0x05)) = False :=
    eq_false (fun h => h.1 rfl)
  have hc5 : (([0x06, 0x58, 0x3d, 0xf0, 16] ++ (img.drop 15856).take 16).length <
      1 + 4 + extraIdLen) = False :=
    eq_false (fun h => by rw [hplen] at h; exact absurd h (by decide))
  simp only [identifyOnce, respBackendB_write, respBackendB_read, hw1, hr1, hc1, hc2, hc3,
    hw2, hr2, hc4, hc5, if_false, Bool.false_eq_true]

theorem identifyWithRetry_stubB (img : List Nat) (w : List (List Nat))
    (himg : img.length = 16384) :
    identifyWithRetry respBackendB false ⟨img, [], w⟩ =
      (.ok (), ⟨img, [],
        (w ++ [magicB]) ++ [buildFrameB 0x53 extraIdAddr extraIdLen []]⟩) := by
  unfold identifyWithRetry
  unfold identifyRetryGo
  rw [identifyOnce_stubB img w himg]

theorem readBlockB_stub (img : List Nat) (w : List (List Nat)) (addr : Nat)
    (himg : img.length = 16384) (haddr : addr + 64 ≤ 16384) :
    readBlockB respBackendB addr 64 ⟨img, [], w⟩ =
      (.ok ((img.drop addr).take 64), ⟨img, [],
        w ++ [buildFrameB 0x53 addr 64 []]⟩) := by
  have hdec : addr / 256 % 256 * 256 + addr % 256 = addr := by omega
  have hsl : ((img.drop addr).take 64).length = 64 := by
    rw [List.length_take, List.length_drop, himg]
    omega
  have hw1 : respBWrite ⟨img, [], w⟩ (buildFrameB 0x53 addr 64 []) =
      ⟨img, [0x06, 0x58, addr / 256 % 256, addr % 256, 64] ++
        (img.drop (addr / 256 % 256 * 256 + addr % 256)).take 64,
        w ++ [buildFrameB 0x53 addr 64 []]⟩ := by
    simp only [buildFrameB, ackByte, respBWrite]
    norm_num
  rw [hdec] at hw1
  have hplen : ([0x06, 0x58, addr / 256 % 256, addr % 256, 64] ++
      (img.drop addr).take 64).length = 1 + 4 + 64 := by
    rw [List.length_append, hsl]
    rfl
  have hr1 := respBRead_exact img
    ([0x06, 0x58, addr / 256 % 256, addr % 256, 64] ++ (img.drop addr).take 64)
    (w ++ [buildFrameB 0x53 addr 64 []]) (1 + 4 + 64) hplen
  have hc1 : (([0x06, 0x58, addr / 256 % 256, addr % 256, 64] ++
      (img.drop addr).take 64).getD 0 0 ≠ ackByte) = False :=
    eq_false (fun h => h rfl)
  have hc2 : ((([0x06, 0x58, addr / 256 % 256, addr % 256, 64] ++
        (img.drop addr).take 64).getD 1 0 ≠ 0x58) ∨
      (([0x06, 0x58, addr / 256 % 256, addr % 256, 64] ++
        (img.drop addr).take 64).getD 2 0 * 256 +
       ([0x06, 0x58, addr / 256 % 256, addr % 256, 64] ++
        (img.drop addr).take 64).getD 3 0 ≠ addr) ∨
      (([0x06, 0x58, addr / 256 % 256, addr % 256, 64] ++
        (img.drop addr).take 64).getD 4 0 ≠ 64)) = False := by
    refine eq_false (fun h => ?_)
    rcases h with h | h | h
    · exact h rfl
    · exact h hdec
    · exact h rfl
  have hdata : ([0x06, 0x58, addr / 256 % 256, addr % 256, 64] ++
      (img.drop addr).take 64).drop 5 = (img.drop addr).take 64 :=
    drop_append_of_length _ (by rfl)
  simp only [readBlockB, respBackendB_write, respBackendB_read, hw1, hr1, hc1, hc2,
    hdata, if_false]

theorem readLoopB_stub (img : List Nat) (himg : img.length = 16384) (n : Nat) :
    ∀ (addr : Nat) (buffer : List Nat) (w : List (List Nat)),
    addr + 64 * n = 16384 → buffer.length = 16384 →
    ∃ w2 : List (List Nat),
    readLoopB respBackendB n addr buffer ⟨img, [], w⟩ =
      (.ok (buffer.take addr ++ img.drop addr), ⟨img, [], w2⟩) := by
  induction n with
  | zero =>
    intro addr buffer w haddr hbuf
    refine ⟨w, ?_⟩
    have ha : addr = 16384 := by omega
    subst ha
    show (Except.ok buffer, (⟨img, [], w⟩ : RespStubB)) = _
    rw [List.take_of_length_le (le_of_eq hbuf), List.drop_eq_nil_of_le (le_of_eq himg),
      List.append_nil]
  | succ n ih =>
    intro addr buffer w haddr hbuf
    have haddr64 : addr + 64 ≤ 16384 := by omega
    have hslen : ((img.drop addr).take 64).length = 64 := by
      rw [List.length_take, List.length_drop, himg]
      omega
    simp only [readLoopB]
    rw [show blockSizeB = 64 from rfl, readBlockB_stub img w addr himg haddr64]
    have hlen2 : (listSet buffer addr ((img.drop addr).take 64)).length = 16384 := by
      rw [length_listSet buffer _ addr (by rw [hslen, hbuf]; omega), hbuf]
    obtain ⟨w2, hw2⟩ := ih (addr + 64) (listSet buffer addr ((img.drop addr).take 64))
      (w ++ [buildFrameB 0x53 addr 64 []]) (by omega) hlen2
    refine ⟨w2, ?_⟩
    show readLoopB respBackendB n (addr + 64)
      (listSet buffer addr ((img.drop addr).take 64))
      ⟨img, [], w ++ [buildFrameB 0x53 addr 64 []]⟩ = _
    rw [hw2]
    have htkfull := take_listSet_full buffer ((img.drop addr).take 64) addr
      (by rw [hbuf]; omega)
    rw [hslen] at htkfull
    rw [htkfull, List.append_assoc]
    have hdr : (img.drop addr).take 64 ++ img.drop (addr + 64) = img.drop addr := by
      rw [← List.drop_drop]
      exact List.take_append_drop 64 (img.drop addr)
    rw [hdr]

theorem readCodeplugB_stub (img : List Nat) (himg : img.length = 16384) :
    ∃ w2 : List (List Nat),
    readCodeplugB respBackendB true ⟨img, [], []⟩ = (.ok img, ⟨img, [], w2⟩) := by
  unfold readCodeplugB
  rw [if_pos rfl, identifyWithRetry_stubB img [] himg]
  obtain ⟨w2, hw2⟩ := readLoopB_stub img himg (memSizeB / blockSizeB) 0
    (List.replicate memSizeB 0)
    (([] ++ [magicB]) ++ [buildFrameB 0x53 extraIdAddr extraIdLen []])
    (by decide) (by rw [List.length_replicate]; rfl)
  refine ⟨w2, ?_⟩
  show readLoopB respBackendB (memSizeB / blockSizeB) 0 (List.replicate memSizeB 0)
    ⟨img, [], ([] ++ [magicB]) ++ [buildFrameB 0x53 extraIdAddr extraIdLen []]⟩ = _
  rw [hw2, List.take_zero, List.drop_zero, List.nil_append]

/-- C1: for both models, readCodeplug run with a connected driver against a
stub transport that answers every read-command frame with the spec-correct
response (Model-A: the W header echo plus the 8 backing bytes then the ACK
exchange; Model-B: the identification exchange plus [ACK, X, addr, 0x40] and
the 64 backing bytes) returns exactly the backing image, a buffer of the
declared memory size (0x03E0 and 0x4000 bytes respectively). -/
theorem readCodeplug_roundtrip (imgA imgB : List Nat) (fuel : Nat)
    (hA : imgA.length = 0x03e0) (hB : imgB.length = 0x4000) :
    (readCodeplugA respBackendA (fuel + 1) true ⟨imgA, []⟩).1 = .ok imgA ∧
    (readCodeplugB respBackendB true ⟨imgB, [], []⟩).1 = .ok imgB := by
  constructor
  · rw [readCodeplugA_stub imgA hA fuel]
  · obtain ⟨w2, hw2⟩ := readCodeplugB_stub imgB hB
    rw [hw2]

/-- Witness for C1 at concrete backing images of the declared sizes. -/
theorem readCodeplug_roundtrip_witness :
    (List.replicate 992 7).length = 0x03e0 ∧ (List.replicate 16384 9).length = 0x4000 ∧
    (readCodeplugA respBackendA 1 true ⟨List.replicate 992 7, []⟩).1 =
      .ok (List.replicate 992 7) ∧
    (readCodeplugB respBackendB true ⟨List.replicate 16384 9, [], []⟩).1 =
      .ok (List.replicate 16384 9) := by
  have h := readCodeplug_roundtrip (List.replicate 992 7) (List.replicate 16384 9) 0
    (by rw [List.length_replicate]) (by rw [List.length_replicate])
  exact ⟨by rw [List.length_replicate], by rw [List.length_replicate], h.1, h.2⟩

/-! ### C3: single-ACK handling in the two Model-A variants -/

theorem scriptBackend_write : scriptBackend.write = scriptWrite := rfl

theorem scriptBackend_read : scriptBackend.readExactly = scriptRead := rfl

theorem scriptWrite_eq (o : Bool) (scr : List (Except Err (List Nat)))
    (w : List (List Nat)) (d : List Nat) :
    scriptWrite ⟨o, scr, w⟩ d = ⟨o, scr, w ++ [d]⟩ := rfl

theorem scriptRead_cons (o : Bool) (r : Except Err (List Nat))
    (rest : List (Except Err (List Nat))) (w : List (List Nat)) (n : Nat) :
    scriptRead ⟨o, r :: rest, w⟩ n = (r, ⟨o, rest, w⟩) := rfl

/-- C3 counterexample: the primary Model-A variant is NOT an immediate
protocol error on a stray non-ACK byte.  Its connect succeeds against a
transport that answers the PROGRAM command with a stray 0x00 byte followed by
the ACK: readUntilAck silently skips the stray byte and keeps waiting, so the
claim that any non-ACK byte is an immediate protocol error is false on this
input. -/
theorem readUntilAck_skips_stray_byte :
    connectA scriptBackend 2 false
      ⟨false, [.ok [0x00], .ok [0x06], .ok [0x50, 0x33, 0x31, 0x30, 0x37, 0, 0, 0],
        .ok [0x06]], []⟩ =
      (.ok (), true, ⟨true, [], [[0x02], programCmd, [0x02], [ackByte]]⟩) := rfl

/-- C3 amended: in the strict Model-A variant every awaited single
acknowledgement byte (after the PROGRAM entry, after the identification
exchange, after a block read, and after a block write) is an immediate
protocol error when it differs from 0x06; the primary variant instead skips
stray non-ACK bytes in readUntilAck and keeps waiting for an ACK. -/
theorem strict_variant_nonack_is_error (b : Nat) (hb : b ≠ 0x06) :
    connectStrict scriptBackend false ⟨false, [.ok [b]], []⟩ =
      (.error (.badAck b), false, ⟨true, [], [0x02 :: programCmd]⟩) ∧
    connectStrict scriptBackend false
      ⟨false, [.ok [0x06], .ok [0x50, 0x33, 0x31, 0x30, 0x37, 0, 0, 0], .ok [b]], []⟩ =
      (.error (.badAck b), false,
        ⟨true, [], [0x02 :: programCmd, [0x02], [ackByte]]⟩) ∧
    readBlockStrict scriptBackend 0 8
      ⟨true, [.ok ([0x57, 0, 0, 8] ++ [9, 9, 9, 9, 9, 9, 9, 9]), .ok [b]], []⟩ =
      (.error (.badAck b), ⟨true, [], [[0x52, 0, 0, 8], [ackByte]]⟩) ∧
    writeBlockStrict scriptBackend 0 [1, 2, 3, 4, 5, 6, 7, 8] ⟨true, [.ok [b]], []⟩ =
      (.error (.badAck b), ⟨true, [], [[0x57, 0, 0, 8, 1, 2, 3, 4, 5, 6, 7, 8]]⟩) ∧
    readUntilAck scriptBackend 2 ⟨true, [.ok [b], .ok [0x06]], []⟩ =
      (.ok (), ⟨true, [], []⟩) := by
  have hb6 : b ≠ ackByte := hb
  refine ⟨?_, ?_, ?_, ?_, ?_⟩
  · show (if b ≠ ackByte then
      ((.error (.badAck b) : Except Err Unit), false, (⟨true, [], [0x02 :: programCmd]⟩ : ScriptStub))
      else _) = _
    rw [if_pos hb6]
  · show (if b ≠ ackByte then
      ((.error (.badAck b) : Except Err Unit), false,
        (⟨true, [], [0x02 :: programCmd, [0x02], [ackByte]]⟩ : ScriptStub))
      else _) = _
    rw [if_pos hb6]
  · show (if b ≠ ackByte then
      ((.error (.badAck b) : Except Err (List Nat)),
        (⟨true, [], [[0x52, 0, 0, 8], [ackByte]]⟩ : ScriptStub))
      else _) = _
    rw [if_pos hb6]
  · show (if b ≠ ackByte then
      ((.error (.badAck b) : Except Err Unit),
        (⟨true, [], [[0x57, 0, 0, 8, 1, 2, 3, 4, 5, 6, 7, 8]]⟩ : ScriptStub))
      else _) = _
    rw [if_pos hb6]
  · show (if b = ackByte then ((.ok () : Except Err Unit), (⟨true, [.ok [0x06]], []⟩ : ScriptStub))
      else readUntilAck scriptBackend 1 ⟨true, [.ok [0x06]], []⟩) = _
    rw [if_neg hb6]
    rfl

/-- Witness for the amended C3 at the stray byte 0x00. -/
theorem strict_variant_nonack_is_error_witness :
    (0 : Nat) ≠ 0x06 ∧
    writeBlockStrict scriptBackend 0 [1, 2, 3, 4, 5, 6, 7, 8] ⟨true, [.ok [0]], []⟩ =
      (.error (.badAck 0), ⟨true, [], [[0x57, 0, 0, 8, 1, 2, 3, 4, 5, 6, 7, 8]]⟩) :=
  ⟨by decide, (strict_variant_nonack_is_error 0 (by decide)).2.2.2.1⟩

/-! ### C4: connect failure handling in the two Model-A variants -/

theorem scriptRead_snd_isOpen (s s' : ScriptStub) (n : Nat) (r : Except Err (List Nat))
    (h : scriptRead s n = (r, s')) : s'.isOpen = s.isOpen := by
  have h2 := congrArg (fun p => p.2.isOpen) h
  simpa using h2.symm

theorem scriptBackend_open :
    scriptBackend.openB = fun s => { s with isOpen := true } := rfl

theorem connectA_error_state (fuel : Nat) (conn : Bool) (s : ScriptStub) (e : Err)
    (h : (connectA scriptBackend fuel conn s).1 = .error e) :
    (connectA scriptBackend fuel conn s).2.1 = conn ∧
    (connectA scriptBackend fuel conn s).2.2.isOpen = false := by
  simp only [connectA] at h ⊢
  rcases hbody : connectABody scriptBackend fuel (scriptBackend.openB s) with ⟨res, s2⟩
  rw [hbody] at h
  cases res with
  | ok _ => exact Except.noConfusion h
  | error e2 => exact ⟨rfl, rfl⟩

theorem connectStrict_error_state (conn : Bool) (s : ScriptStub) (e : Err)
    (h : (connectStrict scriptBackend conn s).1 = .error e) :
    (connectStrict scriptBackend conn s).2.1 = conn ∧
    (connectStrict scriptBackend conn s).2.2.isOpen = true := by
  unfold connectStrict readByteStrict at h ⊢
  simp only [scriptBackend_write, scriptBackend_read, scriptBackend_open] at h ⊢
  rcases h1 : scriptRead (scriptWrite { s with isOpen := true } (0x02 :: programCmd)) 1
    with ⟨r1, t1⟩
  rw [h1] at h
  have ho1 : t1.isOpen = true := scriptRead_snd_isOpen _ _ _ _ h1
  cases r1 with
  | error e1 => exact ⟨rfl, ho1⟩
  | ok data1 =>
    dsimp only at h ⊢
    by_cases hc1 : data1.getD 0 0 ≠ ackByte
    · rw [if_pos hc1]
      exact ⟨rfl, ho1⟩
    · rw [if_neg hc1] at h ⊢
      rcases h2 : scriptRead (scriptWrite t1 [0x02]) 8 with ⟨r2, t2⟩
      rw [h2] at h
      have ho2 : t2.isOpen = true := (scriptRead_snd_isOpen _ _ _ _ h2).trans ho1
      cases r2 with
      | error e2 => exact ⟨rfl, ho2⟩
      | ok ident =>
        dsimp only at h ⊢
        by_cases hid : identIsP3107 ident = true
        · rw [if_pos hid] at h ⊢
          rcases h3 : scriptRead (scriptWrite t2 [ackByte]) 1 with ⟨r3, t3⟩
          rw [h3] at h
          have ho3 : t3.isOpen = true := (scriptRead_snd_isOpen _ _ _ _ h3).trans ho2
          cases r3 with
          | error e3 => exact ⟨rfl, ho3⟩
          | ok data3 =>
            dsimp only at h ⊢
            by_cases hc2 : data3.getD 0 0 ≠ ackByte
            · rw [if_pos hc2]
              exact ⟨rfl, ho3⟩
            · rw [if_neg hc2] at h
              exact Except.noConfusion h
        · rw [if_neg hid]
          exact ⟨rfl, ho2⟩

/-- C4 counterexample: strict-variant connect that fails (stray 0x00 instead
of the PROGRAM ACK) propagates the error WITHOUT closing the transport: the
final backend state still has isOpen = true, refuting the claim that any
connect failure closes the transport before propagating. -/
theorem connectStrict_failure_leaves_open :
    connectStrict scriptBackend false ⟨false, [.ok [0x00]], []⟩ =
      (.error (.badAck 0), false, ⟨true, [], [0x02 :: programCmd]⟩) ∧
    (connectStrict scriptBackend false ⟨false, [.ok [0x00]], []⟩).2.2.isOpen = true :=
  ⟨rfl, rfl⟩

/-- C4 amended: if Model-A connect fails at any step, the primary variant
closes the transport before propagating while the strict variant propagates
with the transport still open; in both variants the driver never enters
Connected, and any readCodeplug or writeCodeplug on a driver that is not
Connected fails with the not-connected error before any I/O. -/
theorem connect_failure_behaviour :
    (∀ (fuel : Nat) (s : ScriptStub) (e : Err),
      (connectA scriptBackend fuel false s).1 = .error e →
      (connectA scriptBackend fuel false s).2.1 = false ∧
      (connectA scriptBackend fuel false s).2.2.isOpen = false)
    ∧ (∀ (s : ScriptStub) (e : Err),
      (connectStrict scriptBackend false s).1 = .error e →
      (connectStrict scriptBackend false s).2.1 = false ∧
      (connectStrict scriptBackend false s).2.2.isOpen = true)
    ∧ (∀ (σ : Type) (B : Backend σ) (fuel : Nat) (s : σ),
      readCodeplugA B fuel false s = (.error .notConnected, s))
    ∧ (∀ (σ : Type) (B : Backend σ) (fuel : Nat) (validators : List (List Nat → Bool))
        (dryRun : Bool) (data : List Nat) (s : σ),
      writeCodeplugA B fuel validators dryRun false data s = (.error .notConnected, s)) := by
  refine ⟨?_, ?_, ?_, ?_⟩
  · intro fuel s e h
    exact connectA_error_state fuel false s e h
  · intro s e h
    exact connectStrict_error_state false s e h
  · intro σ B fuel s
    rfl
  · intro σ B fuel validators dryRun data s
    rfl

/-- Witness for the amended C4 at concrete failing scripts. -/
theorem connect_failure_behaviour_witness :
    (connectA scriptBackend 1 false ⟨false, [.ok [0x00]], []⟩).1 =
      .error .ackTimeout ∧
    (connectA scriptBackend 1 false ⟨false, [.ok [0x00]], []⟩).2.1 = false ∧
    (connectA scriptBackend 1 false ⟨false, [.ok [0x00]], []⟩).2.2.isOpen = false ∧
    (connectStrict scriptBackend false ⟨false, [.ok [0x00]], []⟩).2.1 = false ∧
    (connectStrict scriptBackend false ⟨false, [.ok [0x00]], []⟩).2.2.isOpen = true ∧
    readCodeplugA scriptBackend 1 false (⟨false, [], []⟩ : ScriptStub) =
      (.error .notConnected, ⟨false, [], []⟩) := by
  have h1 := connect_failure_behaviour.1 1 ⟨false, [.ok [0x00]], []⟩ .ackTimeout rfl
  have h2 := connect_failure_behaviour.2.1 ⟨false, [.ok [0x00]], []⟩ (.badAck 0) rfl
  have h3 := connect_failure_behaviour.2.2.1 ScriptStub scriptBackend 1 ⟨false, [], []⟩
  exact ⟨rfl, h1.1, h1.2, h2.1, h2.2, h3⟩

/-! ### C5: Model-B identification retry policy -/

theorem scriptWrite_writes (s : ScriptStub) (d : List Nat) :
    (scriptWrite s d).writes = s.writes ++ [d] := rfl

theorem scriptRead_writes (s : ScriptStub) (n : Nat) :
    (scriptRead s n).2.writes = s.writes := by
  unfold scriptRead
  cases s.script <;> rfl

theorem scriptRead_snd_writes (s s' : ScriptStub) (n : Nat) (r : Except Err (List Nat))
    (h : scriptRead s n = (r, s')) : s'.writes = s.writes := by
  have h2 := congrArg (fun p => p.2.writes) h
  simp only at h2
  rw [← h2, scriptRead_writes]

theorem readOptionalAck_writes (n : Nat) : ∀ (acc : List Nat) (s : ScriptStub),
    (readOptionalAck scriptBackend n acc s).2.writes = s.writes := by
  induction n with
  | zero => intro acc s; rfl
  | succ n ih =>
    intro acc s
    simp only [readOptionalAck, scriptBackend_read]
    rcases h1 : scriptRead s 1 with ⟨r1, t1⟩
    have ht1 : t1.writes = s.writes := scriptRead_snd_writes _ _ _ _ h1
    cases r1 with
    | error e =>
      dsimp only
      by_cases hto : isTimeoutError e = true
      · rw [if_pos hto]
        exact ht1
      · rw [if_neg hto]
        exact ht1
    | ok b =>
      dsimp only
      rw [ih]
      exact ht1

theorem identifyOnce_writes (upload : Bool) (s : ScriptStub) :
    ∃ l : List (List Nat),
      (identifyOnce scriptBackend upload s).2.writes = s.writes ++ magicB :: l ∧
      magicB ∉ l := by
  unfold identifyOnce
  simp only [scriptBackend_write, scriptBackend_read]
  rcases h1 : scriptRead (scriptWrite s magicB) identLengthB with ⟨r1, t1⟩
  have ht1 : t1.writes = s.writes ++ [magicB] := by
    rw [scriptRead_snd_writes _ _ _ _ h1, scriptWrite_writes]
  cases r1 with
  | error e => exact ⟨[], ht1, by simp⟩
  | ok ident =>
    dsimp only
    by_cases hc1 : ident.getD 0 0 ≠ ackByte
    · rw [if_pos hc1]
      exact ⟨[], ht1, by simp⟩
    · rw [if_neg hc1]
      by_cases hc2 : ident.length ≠ identLengthB
      · rw [if_pos hc2]
        exact ⟨[], ht1, by simp⟩
      · rw [if_neg hc2]
        by_cases hc3 : ¬ (fileIdsB.any fun id => containsSubarray ident id) = true
        · rw [if_pos hc3]
          exact ⟨[], ht1, by simp⟩
        · rw [if_neg hc3]
          rcases h2 : scriptRead (scriptWrite t1 (buildFrameB 0x53 extraIdAddr extraIdLen []))
            (1 + 4 + extraIdLen) with ⟨r2, t2⟩
          have hmagneq : buildFrameB 0x53 extraIdAddr extraIdLen [] ≠ magicB := by decide
          have ht2 : t2.writes =
              s.writes ++ magicB :: [buildFrameB 0x53 extraIdAddr extraIdLen []] := by
            rw [scriptRead_snd_writes _ _ _ _ h2, scriptWrite_writes, ht1]
            simp
          cases r2 with
          | error e => exact ⟨_, ht2, by simp [hmagneq.symm]⟩
          | ok extra =>
            dsimp only
            by_cases hc4 : extra.getD 0 0 ≠ ackByte ∧ extra.getD 0 0 ≠ 0x05
            · rw [if_pos hc4]
              exact ⟨_, ht2, by simp [hmagneq.symm]⟩
            · rw [if_neg hc4]
              by_cases hc5 : extra.length < 1 + 4 + extraIdLen
              · rw [if_pos hc5]
                exact ⟨_, ht2, by simp [hmagneq.symm]⟩
              · rw [if_neg hc5]
                cases upload with
                | false => exact ⟨_, ht2, by simp [hmagneq.symm]⟩
                | true =>
                  rw [if_pos rfl]
                  rcases h3 : readOptionalAck scriptBackend 2 [] (scriptWrite t2 [ackByte])
                    with ⟨r3, t3⟩
                  have hackneq : [ackByte] ≠ magicB := by decide
                  have ht3 : t3.writes = s.writes ++ magicB ::
                      [buildFrameB 0x53 extraIdAddr extraIdLen [], [ackByte]] := by
                    have := congrArg (fun p => p.2.writes) h3
                    simp only at this
                    rw [← this, readOptionalAck_writes, scriptWrite_writes, ht2]
                    simp
                  cases r3 with
                  | error e => exact ⟨_, ht3, by simp [hmagneq.symm, hackneq.symm]⟩
                  | ok ack =>
                    dsimp only
                    by_cases hc6 : ack.length = 0 ∨ ack.getD (ack.length - 1) 0 ≠ ackByte
                    · rw [if_pos hc6]
                      exact ⟨_, ht3, by simp [hmagneq.symm, hackneq.symm]⟩
                    · rw [if_neg hc6]
                      exact ⟨_, ht3, by simp [hmagneq.symm, hackneq.symm]⟩

theorem identifyOnce_magic (upload : Bool) (s : ScriptStub) :
    (identifyOnce scriptBackend upload s).2.writes.count magicB =
      s.writes.count magicB + 1 := by
  obtain ⟨l, hw, hnotin⟩ := identifyOnce_writes upload s
  rw [hw, List.count_append, List.count_cons]
  simp [List.count_eq_zero.mpr hnotin]

theorem identifyRetryGo_magic3 (upload : Bool) (s : ScriptStub) :
    (identifyRetryGo scriptBackend upload 3 s).2.writes.count magicB ≤
      s.writes.count magicB + 1 := by
  unfold identifyRetryGo
  rcases h1 : identifyOnce scriptBackend upload s with ⟨r1, t1⟩
  have hm : t1.writes.count magicB = s.writes.count magicB + 1 := by
    have h2 := congrArg (fun p => p.2.writes.count magicB) h1
    simp only at h2
    rw [← h2, identifyOnce_magic]
  cases r1 with
  | ok _ => exact le_of_eq hm
  | error e =>
    dsimp only
    rw [dif_pos (Or.inl (by omega))]
    exact le_of_eq hm

theorem identifyRetryGo_magic2 (upload : Bool) (s : ScriptStub) :
    (identifyRetryGo scriptBackend upload 2 s).2.writes.count magicB ≤
      s.writes.count magicB + 2 := by
  unfold identifyRetryGo
  rcases h1 : identifyOnce scriptBackend upload s with ⟨r1, t1⟩
  have hm : t1.writes.count magicB = s.writes.count magicB + 1 := by
    have h2 := congrArg (fun p => p.2.writes.count magicB) h1
    simp only at h2
    rw [← h2, identifyOnce_magic]
  cases r1 with
  | ok _ =>
    dsimp only
    omega
  | error e =>
    dsimp only
    by_cases hcond : 3 ≤ 2 ∨ ¬ isRetryableIdentError e = true
    · rw [dif_pos hcond]
      dsimp only
      omega
    · rw [dif_neg hcond]
      exact le_trans (identifyRetryGo_magic3 upload t1) (by omega)

theorem identifyRetryGo_magic1 (upload : Bool) (s : ScriptStub) :
    (identifyRetryGo scriptBackend upload 1 s).2.writes.count magicB ≤
      s.writes.count magicB + 3 := by
  unfold identifyRetryGo
  rcases h1 : identifyOnce scriptBackend upload s with ⟨r1, t1⟩
  have hm : t1.writes.count magicB = s.writes.count magicB + 1 := by
    have h2 := congrArg (fun p => p.2.writes.count magicB) h1
    simp only at h2
    rw [← h2, identifyOnce_magic]
  cases r1 with
  | ok _ =>
    dsimp only
    omega
  | error e =>
    dsimp only
    by_cases hcond : 3 ≤ 1 ∨ ¬ isRetryableIdentError e = true
    · rw [dif_pos hcond]
      dsimp only
      omega
    · rw [dif_neg hcond]
      exact le_trans (identifyRetryGo_magic2 upload t1) (by omega)

theorem retry_thirdTry_eval :
    identifyWithRetry scriptBackend false
      ⟨true, [.error .timeout, .error .timeout, .ok identRespB,
        .ok (ackByte :: List.replicate 20 0)], []⟩ =
      (.ok (), ⟨true, [],
        [magicB, magicB, magicB, buildFrameB 0x53 extraIdAddr extraIdLen []]⟩) := by
  have e1 : identifyOnce scriptBackend false
      ⟨true, [.error .timeout, .error .timeout, .ok identRespB,
        .ok (ackByte :: List.replicate 20 0)], []⟩ =
      (.error .timeout, ⟨true, [.error .timeout, .ok identRespB,
        .ok (ackByte :: List.replicate 20 0)], [magicB]⟩) := rfl
  have e2 : identifyOnce scriptBackend false
      ⟨true, [.error .timeout, .ok identRespB, .ok (ackByte :: List.replicate 20 0)],
        [magicB]⟩ =
      (.error .timeout, ⟨true, [.ok identRespB, .ok (ackByte :: List.replicate 20 0)],
        [magicB, magicB]⟩) := rfl
  have e3 : identifyOnce scriptBackend false
      ⟨true, [.ok identRespB, .ok (ackByte :: List.replicate 20 0)], [magicB, magicB]⟩ =
      (.ok (), ⟨true, [],
        [magicB, magicB, magicB, buildFrameB 0x53 extraIdAddr extraIdLen []]⟩) := rfl
  unfold identifyWithRetry
  unfold identifyRetryGo
  rw [e1]
  dsimp only
  rw [dif_neg (by decide)]
  unfold identifyRetryGo
  rw [e2]
  dsimp only
  rw [dif_neg (by decide)]
  unfold identifyRetryGo
  rw [e3]

theorem retry_allFail_eval :
    identifyWithRetry scriptBackend false
      ⟨true, [.error .timeout, .error .timeout, .error .timeout], []⟩ =
      (.error .timeout, ⟨true, [], [magicB, magicB, magicB]⟩) := by
  have e1 : identifyOnce scriptBackend false
      ⟨true, [.error .timeout, .error .timeout, .error .timeout], []⟩ =
      (.error .timeout, ⟨true, [.error .timeout, .error .timeout], [magicB]⟩) := rfl
  have e2 : identifyOnce scriptBackend false
      ⟨true, [.error .timeout, .error .timeout], [magicB]⟩ =
      (.error .timeout, ⟨true, [.error .timeout], [magicB, magicB]⟩) := rfl
  have e3 : identifyOnce scriptBackend false
      ⟨true, [.error .timeout], [magicB, magicB]⟩ =
      (.error .timeout, ⟨true, [], [magicB, magicB, magicB]⟩) := rfl
  unfold identifyWithRetry
  unfold identifyRetryGo
  rw [e1]
  dsimp only
  rw [dif_neg (by decide)]
  unfold identifyRetryGo
  rw [e2]
  dsimp only
  rw [dif_neg (by decide)]
  unfold identifyRetryGo
  rw [e3]
  dsimp only
  rw [dif_pos (Or.inl (by omega))]

/-- C5: Model-B identification is attempted at most 3 times (at most 3 magic
discovery writes ever reach the transport); an error outside the retryable
class propagates immediately, with the whole retry behaving exactly like the
single attempt; the source's retryable class contains the transient failures
(timeout, bad ACK, identification mismatch, missing upload ACK) and not a
generic unrelated error; identify succeeds on the 3rd attempt when the first
two time out and the third returns a valid fingerprint; and it fails after
exactly 3 attempts (3 magic writes) when all three time out. -/
theorem kt8900_identify_retry_policy :
    (∀ (σ : Type) (B : Backend σ) (upload : Bool) (s : σ) (e : Err),
      (identifyOnce B upload s).1 = .error e → isRetryableIdentError e = false →
      identifyWithRetry B upload s = identifyOnce B upload s)
    ∧ (∀ (upload : Bool) (s : ScriptStub),
      (identifyWithRetry scriptBackend upload s).2.writes.count magicB ≤
        s.writes.count magicB + 3)
    ∧ (isRetryableIdentError .timeout = true ∧ (∀ b, isRetryableIdentError (.badAck b) = true) ∧
       isRetryableIdentError .identMismatch = true ∧ isRetryableIdentError .uploadNoAck = true ∧
       isRetryableIdentError .other = false)
    ∧ ((identifyWithRetry scriptBackend false
        ⟨true, [.error .timeout, .error .timeout, .ok identRespB,
          .ok (ackByte :: List.replicate 20 0)], []⟩).1 = .ok ()
      ∧ (identifyWithRetry scriptBackend false
        ⟨true, [.error .timeout, .error .timeout, .ok identRespB,
          .ok (ackByte :: List.replicate 20 0)], []⟩).2.writes.count magicB = 3)
    ∧ ((identifyWithRetry scriptBackend false
        ⟨true, [.error .timeout, .error .timeout, .error .timeout], []⟩).1 = .error .timeout
      ∧ (identifyWithRetry scriptBackend false
        ⟨true, [.error .timeout, .error .timeout, .error .timeout], []⟩).2.writes.count
          magicB = 3) := by
  refine ⟨?_, ?_, ⟨rfl, fun b => rfl, rfl, rfl, rfl⟩, ?_, ?_⟩
  · intro σ B upload s e h hr
    unfold identifyWithRetry
    unfold identifyRetryGo
    rcases hres : identifyOnce B upload s with ⟨r, s2⟩
    rw [hres] at h
    cases r with
    | ok _ => exact Except.noConfusion h
    | error e2 =>
      have h2 : Except.error e2 = Except.error e := h
      injection h2 with he
      subst he
      dsimp only
      rw [dif_pos (Or.inr (by rw [hr]; simp))]
  · intro upload s
    exact identifyRetryGo_magic1 upload s
  · rw [retry_thirdTry_eval]
    exact ⟨rfl, by decide⟩
  · rw [retry_allFail_eval]
    exact ⟨rfl, by decide⟩

/-- Witness for C5: a non-retryable backend error propagates after one
attempt on a concrete script. -/
theorem kt8900_identify_retry_policy_witness :
    (identifyOnce scriptBackend false ⟨true, [.error .other], []⟩).1 = .error .other ∧
    isRetryableIdentError .other = false ∧
    identifyWithRetry scriptBackend false ⟨true, [.error .other], []⟩ =
      identifyOnce scriptBackend false ⟨true, [.error .other], []⟩ ∧
    (identifyWithRetry scriptBackend false ⟨true, [], []⟩).2.writes.count magicB ≤
      (⟨true, [], []⟩ : ScriptStub).writes.count magicB + 3 :=
  ⟨rfl, rfl,
    kt8900_identify_retry_policy.1 ScriptStub scriptBackend false ⟨true, [.error .other], []⟩
      .other rfl rfl,
    kt8900_identify_retry_policy.2.1 false ⟨true, [], []⟩⟩

/-! ### C6: Model-B upload framing -/

theorem identifyOnceUpload_stubB (img : List Nat) (w : List (List Nat))
    (himg : img.length = 16384) :
    identifyOnce respBackendB true ⟨img, [], w⟩ =
      (.ok (), ⟨img, [],
        ((w ++ [magicB]) ++ [buildFrameB 0x53 extraIdAddr extraIdLen []]) ++ [[ackByte]]⟩) := by
  have hw1 : respBWrite ⟨img, [], w⟩ magicB = ⟨img, identRespB, w ++ [magicB]⟩ := rfl
  have hr1 := respBRead_exact img identRespB (w ++ [magicB]) identLengthB (by decide)
  have hc1 : (identRespB.getD 0 0 ≠ ackByte) = False := eq_false (by decide)
  have hc2 : (identRespB.length ≠ identLengthB) = False := eq_false (by decide)
  have hc3 : (¬ (fileIdsB.any fun id => containsSubarray identRespB id) = true) = False :=
    eq_false (by decide)
  have hw2 : respBWrite ⟨img, [], w ++ [magicB]⟩ (buildFrameB 0x53 extraIdAddr extraIdLen []) =
      ⟨img, [0x06, 0x58, 0x3d, 0xf0, 16] ++ (img.drop 15856).take 16,
        (w ++ [magicB]) ++ [buildFrameB 0x53 extraIdAddr extraIdLen []]⟩ := rfl
  have hslice : ((img.drop 15856).take 16).length = 16 := by
    rw [List.length_take, List.length_drop, himg]
    norm_num
  have hplen : ([0x06, 0x58, 0x3d, 0xf0, 16] ++
      (img.drop 15856).take 16).length = 1 + 4 + extraIdLen := by
    rw [List.length_append, hslice]
    rfl
  have hr2 := respBRead_exact img ([0x06, 0x58, 0x3d, 0xf0, 16] ++ (img.drop 15856).take 16)
    ((w ++ [magicB]) ++ [buildFrameB 0x53 extraIdAddr extraIdLen []]) (1 + 4 + extraIdLen) hplen
  have hc4 : ((([0x06, 0x58, 0x3d, 0xf0, 16] ++ (img.drop 15856).take 16).getD 0 0 ≠ ackByte) ∧
      (([0x06, 0x58, 0x3d, 0xf0, 16] ++ (img.drop 15856).take 16).getD 0 0 ≠ 0x05)) = False :=
    eq_false (fun h => h.1 rfl)
  have hc5 : (([0x06, 0x58, 0x3d, 0xf0, 16] ++ (img.drop 15856).take 16).length <
      1 + 4 + extraIdLen) = False :=
    eq_false (fun h => by rw [hplen] at h; exact absurd h (by decide))
  have hw3 : respBWrite
      ⟨img, [], (w ++ [magicB]) ++ [buildFrameB 0x53 extraIdAddr extraIdLen []]⟩ [ackByte] =
      ⟨img, [ackByte],
        ((w ++ [magicB]) ++ [buildFrameB 0x53 extraIdAddr extraIdLen []]) ++ [[ackByte]]⟩ := rfl
  have hopt : readOptionalAck respBackendB 2 []
      ⟨img, [ackByte],
        ((w ++ [magicB]) ++ [buildFrameB 0x53 extraIdAddr extraIdLen []]) ++ [[ackByte]]⟩ =
      (.ok [ackByte],
        ⟨img, [],
          ((w ++ [magicB]) ++ [buildFrameB 0x53 extraIdAddr extraIdLen []]) ++ [[ackByte]]⟩) := rfl
  have hc6 : (([ackByte] : List Nat).length = 0 ∨
      ([ackByte] : List Nat).getD (([ackByte] : List Nat).length - 1) 0 ≠ ackByte) = False :=
    eq_false (by decide)
  simp only [identifyOnce, respBackendB_write, respBackendB_read, hw1, hr1, hc1, hc2, hc3,
    hw2, hr2, hc4, hc5, hw3, hopt, hc6, if_false, if_true, Bool.false_eq_true]

theorem identifyWithRetryUpload_stubB (img : List Nat) (w : List (List Nat))
    (himg : img.length = 16384) :
    identifyWithRetry respBackendB true ⟨img, [], w⟩ =
      (.ok (), ⟨img, [],
        ((w ++ [magicB]) ++ [buildFrameB 0x53 extraIdAddr extraIdLen []]) ++ [[ackByte]]⟩) := by
  unfold identifyWithRetry
  unfold identifyRetryGo
  rw [identifyOnceUpload_stubB img w himg]

theorem writeBlockB_stub (img data : List Nat) (w : List (List Nat)) (addr : Nat)
    (hd : data.length = txBlockSizeB) (omitAck : Bool) :
    writeBlockB respBackendB addr data omitAck ⟨img, [], w⟩ =
      (.ok (), ⟨img, [],
        w ++ [(if omitAck then [] else [ackByte]) ++
          [0x58, addr / 256 % 256, addr % 256, txBlockSizeB] ++ data]⟩) := by
  have hframe : buildFrameB 0x58 addr data.length data =
      [ackByte] ++ [0x58, addr / 256 % 256, addr % 256, txBlockSizeB] ++ data := by
    rw [buildFrameB, hd]
    simp [ackByte, txBlockSizeB]
  unfold writeBlockB
  rw [if_neg (by rw [hd]; decide)]
  cases omitAck with
  | false =>
    dsimp only
    rw [hframe]
    rfl
  | true =>
    dsimp only
    rw [hframe]
    rfl

theorem writeLoopB_stub (img data : List Nat) :
    ∀ (n addr : Nat) (w : List (List Nat)),
      addr + txBlockSizeB * n ≤ data.length →
      writeLoopB respBackendB false data n addr ⟨img, [], w⟩ =
        (.ok (), ⟨img, [], w ++ expectedWriteFramesB data n addr⟩) := by
  intro n
  induction n with
  | zero =>
    intro addr w _
    simp only [writeLoopB, expectedWriteFramesB, List.append_nil]
  | succ n ih =>
    intro addr w h
    have ht : txBlockSizeB = 16 := rfl
    have hblock : ((data.drop addr).take txBlockSizeB).length = txBlockSizeB := by
      rw [List.length_take, List.length_drop, ht]
      rw [ht] at h
      omega
    simp only [writeLoopB]
    rw [if_neg (by decide : ¬ false = true)]
    rw [writeBlockB_stub img ((data.drop addr).take txBlockSizeB) w addr hblock (addr == 0)]
    dsimp only
    have ih' := ih (addr + txBlockSizeB)
    rw [ih' _ (by rw [ht] at h ⊢; omega)]
    conv_rhs => rw [expectedWriteFramesB]
    by_cases h0 : addr = 0
    · simp [h0]
    · simp [h0]

theorem writeCodeplugB_stub (devImg data : List Nat) (hdev : devImg.length = 16384)
    (hdata : uploadMemSizeB ≤ data.length) :
    writeCodeplugB respBackendB false true data ⟨devImg, [], []⟩ =
      (.ok (), ⟨devImg, [],
        ([magicB] ++ [buildFrameB 0x53 extraIdAddr extraIdLen []] ++ [[ackByte]]) ++
          expectedWriteFramesB data (uploadMemSizeB / txBlockSizeB) 0⟩) := by
  have hu : uploadMemSizeB = 12544 := rfl
  have ht : txBlockSizeB = 16 := rfl
  unfold writeCodeplugB
  rw [if_pos rfl, if_neg (by omega), identifyWithRetryUpload_stubB devImg [] hdev]
  dsimp only
  rw [writeLoopB_stub devImg data (uploadMemSizeB / txBlockSizeB) 0 _
    (by rw [ht, hu]; rw [hu] at hdata; omega)]
  simp

theorem writeBlockB_script_ack (o : Bool) (addr b : Nat) (data : List Nat)
    (w : List (List Nat)) (omitAck : Bool) (hd : data.length = txBlockSizeB) :
    writeBlockB scriptBackend addr data omitAck ⟨o, [.ok [b]], w⟩ =
      ((if b = ackByte ∨ b = 0x05 then .ok () else .error (.badAck b)),
       ⟨o, [],
         w ++ [(if omitAck then [] else [ackByte]) ++
           [0x58, addr / 256 % 256, addr % 256, txBlockSizeB] ++ data]⟩) := by
  have hframe : buildFrameB 0x58 addr data.length data =
      [ackByte] ++ [0x58, addr / 256 % 256, addr % 256, txBlockSizeB] ++ data := by
    rw [buildFrameB, hd]
    simp [ackByte, txBlockSizeB]
  have hl : (if omitAck = true then
        ([ackByte] ++ [0x58, addr / 256 % 256, addr % 256, txBlockSizeB] ++ data).drop 1
      else [ackByte] ++ [0x58, addr / 256 % 256, addr % 256, txBlockSizeB] ++ data) =
      (if omitAck = true then [] else [ackByte]) ++
        [0x58, addr / 256 % 256, addr % 256, txBlockSizeB] ++ data := by
    cases omitAck <;> rfl
  unfold writeBlockB
  rw [if_neg (by rw [hd]; decide)]
  dsimp only
  rw [hframe, hl]
  generalize (if omitAck = true then ([] : List Nat) else [ackByte]) ++
    [0x58, addr / 256 % 256, addr % 256, txBlockSizeB] ++ data = E
  have hsr : scriptRead (scriptWrite ⟨o, [Except.ok [b]], w⟩ E) 1 =
      (.ok [b], ⟨o, [], w ++ [E]⟩) := rfl
  simp only [scriptBackend_write, scriptBackend_read]
  rw [hsr]
  dsimp only
  have hgd : ([b] : List Nat).getD 0 0 = b := rfl
  simp only [hgd]
  by_cases hb : b = ackByte ∨ b = 0x05
  · rw [if_neg (fun h => hb.elim h.1 h.2), if_pos hb]
  · rw [if_pos ⟨fun h6 => hb (Or.inl h6), fun h5 => hb (Or.inr h5)⟩, if_neg hb]

/-- C6: Model-B writeCodeplug covers the upload region [0, 0x3100) in 16-byte
blocks. Run against a responsive stub, after the identification preamble the
frames reaching the transport are exactly expectedWriteFramesB: the frame for
the first block (address 0) omits the leading ACK byte and is
[0x58 ('X'), addrHi, addrLo, 0x10] ++ payload, while every later block's frame
is the same but prefixed with 0x06. The single acknowledgement byte of each
block write is accepted if and only if it is 0x06 or 0x05; any other value is
a badAck protocol error. -/
theorem kt8900_write_framing :
    (∀ devImg data : List Nat, devImg.length = 16384 → uploadMemSizeB ≤ data.length →
      writeCodeplugB respBackendB false true data ⟨devImg, [], []⟩ =
        (.ok (), ⟨devImg, [],
          ([magicB] ++ [buildFrameB 0x53 extraIdAddr extraIdLen []] ++ [[ackByte]]) ++
            expectedWriteFramesB data (uploadMemSizeB / txBlockSizeB) 0⟩)) ∧
    (∀ (o : Bool) (addr b : Nat) (data : List Nat) (w : List (List Nat)) (omitAck : Bool),
      data.length = txBlockSizeB →
      writeBlockB scriptBackend addr data omitAck ⟨o, [.ok [b]], w⟩ =
        ((if b = ackByte ∨ b = 0x05 then .ok () else .error (.badAck b)),
         ⟨o, [],
           w ++ [(if omitAck then [] else [ackByte]) ++
             [0x58, addr / 256 % 256, addr % 256, txBlockSizeB] ++ data]⟩)) :=
  ⟨fun devImg data hdev hdata => writeCodeplugB_stub devImg data hdev hdata,
   fun o addr b data w omitAck hd => writeBlockB_script_ack o addr b data w omitAck hd⟩

theorem kt8900_write_framing_witness :
    writeCodeplugB respBackendB false true (List.replicate 12544 0)
        ⟨List.replicate 16384 0, [], []⟩ =
      (.ok (), ⟨List.replicate 16384 0, [],
        ([magicB] ++ [buildFrameB 0x53 extraIdAddr extraIdLen []] ++ [[ackByte]]) ++
          expectedWriteFramesB (List.replicate 12544 0) (uploadMemSizeB / txBlockSizeB) 0⟩) ∧
    writeBlockB scriptBackend 16 (List.replicate 16 2) false ⟨true, [.ok [7]], []⟩ =
      (.error (.badAck 7), ⟨true, [],
        [[ackByte] ++ [0x58, 16 / 256 % 256, 16 % 256, txBlockSizeB] ++
          List.replicate 16 2]⟩) := by
  constructor
  · exact kt8900_write_framing.1 (List.replicate 16384 0) (List.replicate 12544 0)
      (by rw [List.length_replicate]) (by rw [List.length_replicate]; decide)
  · rw [kt8900_write_framing.2 true 16 7 (List.replicate 16 2) [] false
      (by rw [List.length_replicate]; rfl)]
    rw [if_neg (by decide)]
    rfl
